import Mathlib

/-!
MeshroomMaya: face-construction geometry of the build-face and create manipulators.

Shallow embedding of
* `src/mayaMVG/maya/context/MVGBuildFaceManipulator.cpp` (2D predicates, winding check,
  `createFace3d`, `doPress`, `doMove`),
* `src/mayaMVG/maya/context/MVGCreateManipulator.cpp` (edge-extension preview, `doPress`).

Functions of the Maya SDK and of `MVGGeometryUtil` are arguments of the definitions that call
them.  An array read outside its bounds has no defined value in the source; such a run is
`none`.

Numbers: the C++ `double` is modelled by an arbitrary linearly ordered field `K` with exact
arithmetic (rounding is not modelled).  Every definition is computable and can be evaluated
at `K := ℚ`; every theorem also holds at `K := ℝ`.
-/

namespace MayaMVG

variable {K : Type} [LinearOrderedField K]

/-! ## Data model -/

/-- Maya `MVector`: three `double` components. -/
structure MVector (K : Type) where
  x : K
  y : K
  z : K
deriving DecidableEq

/-- Maya `MPoint`, cartesian (the homogeneous coordinate `w` is fixed to 1 and left out). -/
structure MPoint (K : Type) where
  x : K
  y : K
  z : K
deriving DecidableEq

/-- Maya `MPoint::operator-(const MPoint&)`: the vector from `B` to `A`. -/
def MPoint.sub (A B : MPoint K) : MVector K :=
  ⟨A.x - B.x, A.y - B.y, A.z - B.z⟩

/-- Maya `MPoint::operator+(const MVector&)`. -/
def MPoint.addV (P : MPoint K) (V : MVector K) : MPoint K :=
  ⟨P.x + V.x, P.y + V.y, P.z + V.z⟩

/-- Maya `MPoint::operator-(const MVector&)`. -/
def MPoint.subV (P : MPoint K) (V : MVector K) : MPoint K :=
  ⟨P.x - V.x, P.y - V.y, P.z - V.z⟩

/-- Maya `operator*(double, const MVector&)`. -/
def MVector.smul (k : K) (V : MVector K) : MVector K :=
  ⟨k * V.x, k * V.y, k * V.z⟩

/-! ## Geometric predicates (anonymous namespace of MVGBuildFaceManipulator.cpp) -/

/-- Source `crossProduct2d`, lines 28-30: `A.x*B.y - A.y*B.x`. -/
def crossProduct2d (A B : MVector K) : K :=
  A.x * B.y - A.y * B.x

/-- Source `dotProduct2d`, lines 32-34, exactly as written in the source: `A.x*B.x - A.y*B.y`. -/
def dotProduct2d (A B : MVector K) : K :=
  A.x * B.x - A.y * B.y

/-- The local `double eps = 0.00001` of `edgesIntersection`. -/
def edgesIntersectionEps : K := 1 / 100000

/-- Source `edgesIntersection`, lines 36-58, with the division operator of the two quotients taken
as an argument `dv`; the guard on `cross` comes first, as in the source. -/
def edgesIntersectionWith (dv : K → K → K) (A B : MPoint K) (AD BC : MVector K) : Bool :=
  let cross := crossProduct2d AD BC
  let eps : K := edgesIntersectionEps
  if cross < eps ∧ cross > -eps then
    false
  else
    let AB := B.sub A
    let x := dv (crossProduct2d AB BC) (crossProduct2d AD BC)
    let y := dv (crossProduct2d AB AD) (crossProduct2d AD BC)
    if x ≥ 0 ∧ x ≤ 1 ∧ y ≥ 0 ∧ y ≤ 1 then
      true
    else
      false

/-- Source `edgesIntersection`, lines 36-58: the quotients are field divisions. -/
def edgesIntersection (A B : MPoint K) (AD BC : MVector K) : Bool :=
  edgesIntersectionWith (fun a b => a / b) A B AD BC

/-- The macro `EDGE_TOLERANCE`, defined as `1.0e-6` on line 16. -/
def EDGE_TOLERANCE : K := 1 / 1000000

/-- Source `arePointsAligned2d`, lines 61-75. -/
def arePointsAligned2d (P A B : MPoint K) : Bool :=
  let AB := B.sub A
  let AP := P.sub A
  let cross := crossProduct2d AB AP
  if cross > EDGE_TOLERANCE ∨ cross < -EDGE_TOLERANCE then
    false
  else
    true

/-- Source `isPointOnEdge`, lines 77-91.  The Maya SDK constant `kMFnMeshTolerance` is not part of
the repository and is the argument `kMFnMeshTolerance`. -/
def isPointOnEdge (kMFnMeshTolerance : K) (P A B : MPoint K) : Bool :=
  let PA := A.sub P
  let PB := B.sub P
  if !arePointsAligned2d P A B then
    false
  else
    let scalar := dotProduct2d PA PB
    if scalar > kMFnMeshTolerance then
      false
    else
      true

/-! ## Winding check of `MVGBuildFaceManipulator::createFace3d` -/

/-- The block "Check points order" of `createFace3d`, lines 519-528, acting on the point list
held by the camera.  `MVGCamera` is declared outside the sources at hand: its point container
is a plain sequence, `getPointAtIndex` is the lookup, `setPointAtIndex` the in-place update.
The result is `none` when one of the four indices read does not exist. -/
def createFace3d_windingCheck (points : List (MPoint K)) : Option (List (MPoint K)) :=
  match points[0]?, points[1]?, points[2]?, points[3]? with
  | some c0, some c1, some c2, some c3 =>
    let AD := c3.sub c0
    let BC := c2.sub c1
    if edgesIntersection c0 c1 AD BC then
      let tmp2 := c2
      let tmp3 := c3
      some ((points.set 3 tmp2).set 2 tmp3)
    else
      some points
  | _, _, _, _ => none

/-! ## Edge extension of `MVGCreateManipulator` -/

/-- Modelled from the spec: the record behind `_manipUtils.intersectionData()`
(`MVGManipulatorUtil` is not among the sources): the two vertex indices of the intersected
edge, a 2D height vector, a 3D height vector and a scalar ratio. -/
structure IntersectionData (K : Type) where
  edgePointIndexes : Nat × Nat
  edgeHeight2D : MVector K
  edgeHeight3D : MVector K
  edgeRatio : K

/-- Source `MVGCreateManipulator::computeEdgeIntersectionData`, lines 275-293.
`worldToCamera` (MVGGeometryUtil) and `length` (`MVector::length`) are external and taken as
arguments; `meshPoints` is the point array of the intersected mesh.  The result is `none`
when an edge index is outside `meshPoints`. -/
def computeEdgeIntersectionData (worldToCamera : MPoint K → MPoint K)
    (length : MVector K → K) (meshPoints : List (MPoint K))
    (data : IntersectionData K) (mousePointInCameraCoord : MPoint K) :
    Option (IntersectionData K) :=
  match meshPoints[data.edgePointIndexes.1]?, meshPoints[data.edgePointIndexes.2]? with
  | some edgePoint3D_0, some edgePoint3D_1 =>
    let edgePoint0 := worldToCamera edgePoint3D_0
    let edgePoint1 := worldToCamera edgePoint3D_1
    let ratioVector2D := edgePoint1.sub mousePointInCameraCoord
    let edgeHeight2D := edgePoint1.sub edgePoint0
    some { edgePointIndexes := data.edgePointIndexes
           edgeHeight2D := edgeHeight2D
           edgeRatio := length ratioVector2D / length edgeHeight2D
           edgeHeight3D := edgePoint3D_1.sub edgePoint3D_0 }
  | _, _ => none

/-- Lines 307-314 of `computeTmpFaceOnEdgeExtend`: the 2D preview quad
`[edgePoint1, edgePoint0, P3, P4]`. -/
def computeTmpFaceOnEdgeExtend_previewPoints2D (edgePoint0 edgePoint1 : MPoint K)
    (mousePointInCameraCoord : MPoint K) (edgeRatio : K) (edgeHeight2D : MVector K) :
    List (MPoint K) :=
  let P3 := mousePointInCameraCoord.subV (MVector.smul (1 - edgeRatio) edgeHeight2D)
  let P4 := mousePointInCameraCoord.addV (MVector.smul edgeRatio edgeHeight2D)
  [edgePoint1, edgePoint0, P3, P4]

/-- Source `MVGCreateManipulator::computeTmpFaceOnEdgeExtend`, lines 295-327; the value is the new
content of `previewFace3D`.  `projectFace2D` (MVGGeometryUtil, external) receives the 2D
points, the flag `true` and the 3D height, and yields its status together with the array it
wrote into the cleared `previewFace3D`. -/
def computeTmpFaceOnEdgeExtend (worldToCamera : MPoint K → MPoint K)
    (projectFace2D : List (MPoint K) → Bool → MVector K → Bool × List (MPoint K))
    (meshPoints : List (MPoint K)) (data : IntersectionData K)
    (mousePointInCameraCoord : MPoint K) : Option (List (MPoint K)) :=
  match meshPoints[data.edgePointIndexes.1]?, meshPoints[data.edgePointIndexes.2]? with
  | some edgePoint3D_0, some edgePoint3D_1 =>
    let edgePoint0 := worldToCamera edgePoint3D_0
    let edgePoint1 := worldToCamera edgePoint3D_1
    let previewPoints2D := computeTmpFaceOnEdgeExtend_previewPoints2D edgePoint0 edgePoint1
      mousePointInCameraCoord data.edgeRatio data.edgeHeight2D
    let r := projectFace2D previewPoints2D true data.edgeHeight3D
    if r.1 then
      some ((r.2.set 0 edgePoint3D_1).set 1 edgePoint3D_0)
    else
      some r.2
  | _, _ => none

/-! ## Reference notions used to state the properties -/

/-- Analytic crossing test of the segments `PQ` and `RS` in the x,y plane: parameters
`t`, `u` in `[0,1]` with `P + t*(Q-P) = R + u*(S-R)`. -/
def segmentsCross (P Q R S : MPoint K) : Prop :=
  ∃ t u : K, 0 ≤ t ∧ t ≤ 1 ∧ 0 ≤ u ∧ u ≤ 1 ∧
    P.x + t * (Q.x - P.x) = R.x + u * (S.x - R.x) ∧
    P.y + t * (Q.y - P.y) = R.y + u * (S.y - R.y)

/-- Signed area of the triangle `P Q R` in the x,y plane (twice): `cross(Q-P, R-P)`. -/
def orient2d (P Q R : MPoint K) : K :=
  crossProduct2d (Q.sub P) (R.sub P)

/-- Two points coincide in the x,y plane. -/
def sameXY (P Q : MPoint K) : Prop :=
  P.x = Q.x ∧ P.y = Q.y

/-- General position of four points in the x,y plane: pairwise distinct, no three
collinear. -/
def generalPosition (p0 p1 p2 p3 : MPoint K) : Prop :=
  (¬ sameXY p0 p1 ∧ ¬ sameXY p0 p2 ∧ ¬ sameXY p0 p3 ∧
    ¬ sameXY p1 p2 ∧ ¬ sameXY p1 p3 ∧ ¬ sameXY p2 p3) ∧
  orient2d p0 p1 p2 ≠ 0 ∧ orient2d p0 p1 p3 ≠ 0 ∧
  orient2d p0 p2 p3 ≠ 0 ∧ orient2d p1 p2 p3 ≠ 0

/-- The points `p0 p1 p2 p3` are the vertices of a strictly convex quadrilateral listed in
cyclic order: the four consecutive turns all go the same way. -/
def strictlyConvexCyclic (p0 p1 p2 p3 : MPoint K) : Prop :=
  (0 < orient2d p0 p1 p2 ∧ 0 < orient2d p1 p2 p3 ∧
    0 < orient2d p2 p3 p0 ∧ 0 < orient2d p3 p0 p1) ∨
  (orient2d p0 p1 p2 < 0 ∧ orient2d p1 p2 p3 < 0 ∧
    orient2d p2 p3 p0 < 0 ∧ orient2d p3 p0 p1 < 0)

/-- The usual dot product of the x,y components, `A.x*B.x + A.y*B.y`. -/
def dotXY (A B : MVector K) : K :=
  A.x * B.x + A.y * B.y

/-- Squared euclidean norm of a vector, `x*x + y*y + z*z`. -/
def MVector.normSq (V : MVector K) : K :=
  V.x * V.x + V.y * V.y + V.z * V.z

/-- The value `length V` is the euclidean length of `V`: non-negative with square
`normSq V`.  This is what `MVector::length` returns, stated for one vector. -/
def isLengthOf (length : MVector K → K) (V : MVector K) : Prop :=
  0 ≤ length V ∧ length V * length V = V.normSq

/-! ## State machine of `MVGBuildFaceManipulator` -/

/-- Members of `MVGBuildFaceManipulator` (header, lines 41-54) that `doPress`, `doMove` and
`createFace3d` read or write, together with the point list held by the static `_camera` and
the points of the mesh `MVGProject::_MESH` as `getPoints` returns them. -/
structure BuildFaceState (K : Type) where
  cameraPoints : List (MPoint K)
  mousePoint : MPoint K
  lastPoint : MPoint K
  connectFace : Bool
  computeLastPoint : Bool
  isNewShape : Bool
  doIntersectExistingPoint : Bool
  meshPoints : List (MPoint K)

/-- Lines 519-563 of `MVGBuildFaceManipulator::createFace3d`: winding check on the camera
points, then `projectFace2D` and, on success only, `addPolygon`.  `projectFace2D`
(MVGGeometryUtil) maps the 2D face to its status and the `face3D` it wrote; `addPolygon`
(Maya mesh) maps the mesh points and a face to the new mesh points; both are external.  The
result is `none` when an index read does not exist (`length() - 2` on a one-point array). -/
def MVGBuildFaceManipulator.createFace3d
    (projectFace2D : List (MPoint K) → Bool × List (MPoint K))
    (addPolygon : List (MPoint K) → List (MPoint K) → List (MPoint K))
    (st : BuildFaceState K) : Option (BuildFaceState K) :=
  match createFace3d_windingCheck st.cameraPoints with
  | none => none
  | some points =>
    let r := projectFace2D points
    if r.1 then
      if st.connectFace && decide (st.meshPoints.length > 0) && !st.isNewShape then
        if st.meshPoints.length < 2 then
          none
        else
          match st.meshPoints[st.meshPoints.length - 1]?,
              st.meshPoints[st.meshPoints.length - 2]? with
          | some m1, some m2 =>
            let face3D := (r.2.set 0 m1).set 1 m2
            some { st with cameraPoints := points
                           meshPoints := addPolygon st.meshPoints face3D }
          | _, _ => none
      else
        some { st with cameraPoints := points
                       meshPoints := addPolygon st.meshPoints r.2 }
    else
      some { st with cameraPoints := points }

/-- Lines 320-360 of `MVGBuildFaceManipulator::doPress`: the optional re-seeding from the last
two mesh points, the new point under the pointer, and the computed "fourth point".  The value
is the camera point list reached; `worldToView` and `viewToWorld` belong to `M3dView` and
are external.  The result is `none` when the mesh has exactly one point and index
`length() - 2` is read. -/
def MVGBuildFaceManipulator.doPress_addPoints (worldToView : MPoint K → Int × Int)
    (viewToWorld : Int → Int → MPoint K) (mousex mousey : Int) (st : BuildFaceState K) :
    Option (List (MPoint K)) :=
  let seeded : Option (List (MPoint K)) :=
    if !st.isNewShape &&
        (st.computeLastPoint || (st.connectFace && decide (st.cameraPoints.length < 3))) then
      if st.meshPoints.length > 0 then
        if st.meshPoints.length < 2 then
          none
        else
          match st.meshPoints[st.meshPoints.length - 1]?,
              st.meshPoints[st.meshPoints.length - 2]? with
          | some m1, some m2 =>
            let lastMeshPoint := viewToWorld (worldToView m1).1 (worldToView m1).2
            let lastMeshPoint2 := viewToWorld (worldToView m2).1 (worldToView m2).2
            some [lastMeshPoint, lastMeshPoint2]
          | _, _ => none
      else
        some []
    else
      some st.cameraPoints
  match seeded with
  | none => none
  | some points =>
    let wpos := viewToWorld mousex mousey
    let points1 := points ++ [wpos]
    if st.computeLastPoint && decide (points1.length > 2) then
      some (points1 ++ [st.lastPoint])
    else
      some points1

/-- Lines 367-381 of `MVGBuildFaceManipulator::doPress`: after `createFace3d`, keep
`tmp[3], tmp[2]` in connect-face mode, clear otherwise. -/
def MVGBuildFaceManipulator.doPress_keepLastTwo (st : BuildFaceState K) :
    Option (BuildFaceState K) :=
  if st.connectFace then
    match st.cameraPoints[3]?, st.cameraPoints[2]? with
    | some tmp3, some tmp2 =>
      some { st with cameraPoints := [tmp3, tmp2], isNewShape := false }
    | _, _ => none
  else
    some { st with isNewShape := true, cameraPoints := [] }

/-- Source `MVGBuildFaceManipulator::doPress`, lines 318-385. -/
def MVGBuildFaceManipulator.doPress (worldToView : MPoint K → Int × Int)
    (viewToWorld : Int → Int → MPoint K)
    (projectFace2D : List (MPoint K) → Bool × List (MPoint K))
    (addPolygon : List (MPoint K) → List (MPoint K) → List (MPoint K))
    (mousex mousey : Int) (st : BuildFaceState K) : Option (BuildFaceState K) :=
  match MVGBuildFaceManipulator.doPress_addPoints worldToView viewToWorld mousex mousey st with
  | none => none
  | some points =>
    if points.length > 3 then
      match MVGBuildFaceManipulator.createFace3d projectFace2D addPolygon
          { st with cameraPoints := points } with
      | none => none
      | some st1 => MVGBuildFaceManipulator.doPress_keepLastTwo st1
    else
      some { st with cameraPoints := points }

/-- The `for` loop of `doMove`, lines 426-439, with its `break`: the flag becomes true at the
first mesh point whose view position is within `kMFnMeshPointTolerance` of the pointer in
both axes. -/
def MVGBuildFaceManipulator.doMove_pointLoop (worldToView : MPoint K → Int × Int)
    (kMFnMeshPointTolerance : K) (mousex mousey : Int) :
    List (MPoint K) → Bool → Bool
  | [], flag => flag
  | p :: rest, flag =>
    let x := (worldToView p).1
    let y := (worldToView p).2
    if (mousex : K) ≤ (x : K) + kMFnMeshPointTolerance ∧
        (mousex : K) ≥ (x : K) - kMFnMeshPointTolerance ∧
        (mousey : K) ≤ (y : K) + kMFnMeshPointTolerance ∧
        (mousey : K) ≥ (y : K) - kMFnMeshPointTolerance then
      true
    else
      MVGBuildFaceManipulator.doMove_pointLoop worldToView kMFnMeshPointTolerance
        mousex mousey rest flag

/-- Source `MVGBuildFaceManipulator::doMove`, lines 392-486.  `newCamera` is `some points`
when the view's camera differs from `_lastCameraPath` (then `_camera` is replaced by the
camera of that path, whose point list is `points`) and `none` otherwise; the Maya SDK
constant `kMFnMeshPointTolerance` is an argument. -/
def MVGBuildFaceManipulator.doMove (worldToView : MPoint K → Int × Int)
    (viewToWorld : Int → Int → MPoint K) (kMFnMeshPointTolerance : K)
    (newCamera : Option (List (MPoint K))) (mousex mousey : Int) (st : BuildFaceState K) :
    BuildFaceState K :=
  let st1 : BuildFaceState K :=
    match newCamera with
    | some points => { st with cameraPoints := points }
    | none => st
  let st2 : BuildFaceState K := { st1 with mousePoint := viewToWorld mousex mousey }
  if st2.meshPoints.length > 0 then
    let found := MVGBuildFaceManipulator.doMove_pointLoop worldToView kMFnMeshPointTolerance
      mousex mousey st2.meshPoints false
    { st2 with doIntersectExistingPoint := found }
  else
    st2

/-! ## Press events of `MVGCreateManipulator` -/

/-- The three values of `MVGManipulatorUtil::intersectionState()` named in the `switch` of
`MVGCreateManipulator::doPress`. -/
inductive IntersectionState where
  | eIntersectionNone
  | eIntersectionPoint
  | eIntersectionEdge
deriving DecidableEq

/-- What `MVGCreateManipulator::doPress` keeps between calls: `data->buildPoints2D` and the
intersection data of `_manipUtils`. -/
structure CreateState (K : Type) where
  buildPoints2D : List (MPoint K)
  intersectionData : IntersectionData K

/-- What one call of `MVGCreateManipulator::doPress` reads from outside: the left mouse
button, whether the cached display data and the context exist, the intersection state, the
pointer in camera coordinates (`viewToCamera`), the status that `addCreateFaceCommand`
returns, and the points of the intersected mesh. -/
structure PressEnv (K : Type) where
  leftButton : Bool
  hasDisplayData : Bool
  hasContext : Bool
  intersectionState : IntersectionState
  mousePoint : MPoint K
  commandSucceeds : Bool
  meshPoints : List (MPoint K)

/-- Source `MVGCreateManipulator::doPress`, lines 71-123.  The first component is `false`
when the function returns `MS::kFailure` and `true` when it reaches the call of the base
class.  The status of `projectFace2D` is not read by the source and its 2D argument is taken
to be read-only. -/
def MVGCreateManipulator.doPress (worldToCamera : MPoint K → MPoint K)
    (length : MVector K → K) (env : PressEnv K) (st : CreateState K) :
    Option (Bool × CreateState K) :=
  if !env.leftButton then
    some (false, st)
  else if !env.hasDisplayData then
    some (false, st)
  else if !env.hasContext then
    some (false, st)
  else
    match env.intersectionState with
    | IntersectionState.eIntersectionNone =>
      let points := st.buildPoints2D ++ [env.mousePoint]
      if points.length < 4 then
        some (true, { st with buildPoints2D := points })
      else if !env.commandSucceeds then
        some (false, { st with buildPoints2D := points })
      else
        some (true, { st with buildPoints2D := [] })
    | IntersectionState.eIntersectionPoint => some (true, st)
    | IntersectionState.eIntersectionEdge =>
      match computeEdgeIntersectionData worldToCamera length env.meshPoints
          st.intersectionData env.mousePoint with
      | none => none
      | some stored => some (true, { st with intersectionData := stored })

/-- A sequence of `MVGCreateManipulator::doPress` calls, one per element of `envs`, each on
the state the previous call left. -/
def MVGCreateManipulator.doPressAll (worldToCamera : MPoint K → MPoint K)
    (length : MVector K → K) : List (PressEnv K) → CreateState K → Option (CreateState K)
  | [], st => some st
  | env :: envs, st =>
    match MVGCreateManipulator.doPress worldToCamera length env st with
    | none => none
    | some r => MVGCreateManipulator.doPressAll worldToCamera length envs r.2

/-! ## Concrete inputs for the examples -/

/-- A view whose `viewToWorld` puts pixel `(x, y)` at the world point `(x, y, 0)`. -/
def planeViewToWorld (x y : Int) : MPoint ℚ :=
  ⟨(x : ℚ), (y : ℚ), 0⟩

/-- A view whose `worldToView` sends every world point to the pixel `(5, 5)`. -/
def pixelFiveWorldToView (_p : MPoint ℚ) : Int × Int :=
  (5, 5)

/-- A build-face state with the three accumulated points `(0,0)`, `(1,0)`, `(1,1)`, an empty
mesh, `_lastPoint = (9,9)` and the given flags. -/
def threeClicks (connectFace computeLastPoint isNewShape : Bool) : BuildFaceState ℚ where
  cameraPoints := [⟨0, 0, 0⟩, ⟨1, 0, 0⟩, ⟨1, 1, 0⟩]
  mousePoint := ⟨0, 0, 0⟩
  lastPoint := ⟨9, 9, 0⟩
  connectFace := connectFace
  computeLastPoint := computeLastPoint
  isNewShape := isNewShape
  doIntersectExistingPoint := false
  meshPoints := []

/-- A press with the left button, display data and context present, no intersection, the
pointer at `(0,0)`, and the given status of `addCreateFaceCommand`. -/
def plainPress (commandSucceeds : Bool) : PressEnv ℚ where
  leftButton := true
  hasDisplayData := true
  hasContext := true
  intersectionState := IntersectionState.eIntersectionNone
  mousePoint := ⟨0, 0, 0⟩
  commandSucceeds := commandSucceeds
  meshPoints := []

/-- The state of the create manipulator at the start of an interaction: no build point. -/
def emptyCreateState : CreateState ℚ where
  buildPoints2D := []
  intersectionData := ⟨(0, 1), ⟨0, 0, 0⟩, ⟨0, 0, 0⟩, 0⟩

/-- The test of claim and spec on one mesh vertex: its view position `(x, y)` satisfies
`|mousex - x| <= tol` and `|mousey - y| <= tol`. -/
def vertexNearPointer (worldToView : MPoint K → Int × Int) (tol : K) (mousex mousey : Int)
    (p : MPoint K) : Prop :=
  |(mousex : K) - ((worldToView p).1 : K)| ≤ tol ∧
    |(mousey : K) - ((worldToView p).2 : K)| ≤ tol

/-- A build-face state with an empty mesh, no accumulated point, and the point-intersection
flag as given. -/
def emptyMeshState (doIntersectExistingPoint : Bool) : BuildFaceState ℚ where
  cameraPoints := []
  mousePoint := ⟨0, 0, 0⟩
  lastPoint := ⟨0, 0, 0⟩
  connectFace := true
  computeLastPoint := true
  isNewShape := true
  doIntersectExistingPoint := doIntersectExistingPoint
  meshPoints := []

/-! ## Theorems -/

theorem edgesIntersection_eq_true_iff (A B : MPoint K) (AD BC : MVector K) :
    edgesIntersection A B AD BC = true ↔
      ¬ (crossProduct2d AD BC < edgesIntersectionEps ∧
          crossProduct2d AD BC > -edgesIntersectionEps) ∧
      0 ≤ crossProduct2d (B.sub A) BC / crossProduct2d AD BC ∧
      crossProduct2d (B.sub A) BC / crossProduct2d AD BC ≤ 1 ∧
      0 ≤ crossProduct2d (B.sub A) AD / crossProduct2d AD BC ∧
      crossProduct2d (B.sub A) AD / crossProduct2d AD BC ≤ 1 := by
  unfold edgesIntersection edgesIntersectionWith
  by_cases h : crossProduct2d AD BC < edgesIntersectionEps ∧
      crossProduct2d AD BC > -edgesIntersectionEps
  · simp [h]
  · simp only [h, if_false, not_false_eq_true, true_and, ge_iff_le]
    split <;> simp_all

theorem edgesIntersectionEps_pos : (0 : K) < edgesIntersectionEps := by
  unfold edgesIntersectionEps
  positivity

theorem cross_ne_zero_of_eps_le (AD BC : MVector K)
    (h : edgesIntersectionEps ≤ |crossProduct2d AD BC|) : crossProduct2d AD BC ≠ 0 := by
  intro h0
  rw [h0, abs_zero] at h
  exact absurd h (not_le.mpr edgesIntersectionEps_pos)

theorem guard_false_of_eps_le (AD BC : MVector K)
    (h : edgesIntersectionEps ≤ |crossProduct2d AD BC|) :
    ¬ (crossProduct2d AD BC < edgesIntersectionEps ∧
        crossProduct2d AD BC > -edgesIntersectionEps) := by
  rintro ⟨h1, h2⟩
  have : |crossProduct2d AD BC| < edgesIntersectionEps := abs_lt.mpr ⟨h2, h1⟩
  exact absurd h (not_le.mpr this)

theorem edgesIntersectionWith_of_guard (dv : K → K → K) (A B : MPoint K) (AD BC : MVector K)
    (h : crossProduct2d AD BC < edgesIntersectionEps ∧
      crossProduct2d AD BC > -edgesIntersectionEps) :
    edgesIntersectionWith dv A B AD BC = false := by
  unfold edgesIntersectionWith
  simp [h]

/-- The winding check on a list of exactly four points. -/
theorem createFace3d_windingCheck_four (p0 p1 p2 p3 : MPoint K) :
    createFace3d_windingCheck [p0, p1, p2, p3] =
      some (if edgesIntersection p0 p1 (p3.sub p0) (p2.sub p1) = true
        then [p0, p1, p3, p2] else [p0, p1, p2, p3]) := by
  unfold createFace3d_windingCheck
  by_cases h : edgesIntersection p0 p1 (p3.sub p0) (p2.sub p1) = true <;> simp [h]

/-- Beyond the epsilon guard the test is the analytic parametric one. -/
theorem edgesIntersection_true_iff_exists (A B : MPoint K) (AD BC : MVector K)
    (h' : edgesIntersectionEps ≤ |crossProduct2d AD BC|) :
    edgesIntersection A B AD BC = true ↔
      ∃ t u : K, 0 ≤ t ∧ t ≤ 1 ∧ 0 ≤ u ∧ u ≤ 1 ∧
        A.x + t * AD.x = B.x + u * BC.x ∧ A.y + t * AD.y = B.y + u * BC.y := by
  have hD := cross_ne_zero_of_eps_le AD BC h'
  have hg := guard_false_of_eps_le AD BC h'
  rw [edgesIntersection_eq_true_iff]
  constructor
  · rintro ⟨-, h1, h2, h3, h4⟩
    refine ⟨_, _, h1, h2, h3, h4, ?_, ?_⟩
    · simp only [crossProduct2d, MPoint.sub] at hD ⊢
      field_simp
      ring
    · simp only [crossProduct2d, MPoint.sub] at hD ⊢
      field_simp
      ring
  · rintro ⟨t, u, ht0, ht1, hu0, hu1, ex, ey⟩
    have e1 : crossProduct2d (B.sub A) BC / crossProduct2d AD BC = t := by
      rw [div_eq_iff hD]
      simp only [crossProduct2d, MPoint.sub]
      linear_combination (-BC.y) * ex + BC.x * ey
    have e2 : crossProduct2d (B.sub A) AD / crossProduct2d AD BC = u := by
      rw [div_eq_iff hD]
      simp only [crossProduct2d, MPoint.sub]
      linear_combination (-AD.y) * ex + AD.x * ey
    rw [e1, e2]
    exact ⟨hg, ht0, ht1, hu0, hu1⟩

/-- C1: for directions that are not parallel within the epsilon
(`|AD.x*BC.y - AD.y*BC.x| >= 1e-5`), `edgesIntersection A B AD BC` is true exactly when
parameters `t`, `u` in `[0,1]` exist with `A + t*AD = B + u*BC` in the x and y components. -/
theorem edgesIntersection_iff_parametric (A B : MPoint K) (AD BC : MVector K)
    (h : (1 / 100000 : K) ≤ |AD.x * BC.y - AD.y * BC.x|) :
    edgesIntersection A B AD BC = true ↔
      ∃ t u : K, 0 ≤ t ∧ t ≤ 1 ∧ 0 ≤ u ∧ u ≤ 1 ∧
        A.x + t * AD.x = B.x + u * BC.x ∧ A.y + t * AD.y = B.y + u * BC.y :=
  edgesIntersection_true_iff_exists A B AD BC h

/-- Witness for C1: the diagonals of the unit square, where the test is true and the
parameters are `t = u = 1/2`. -/
theorem edgesIntersection_iff_parametric_witness :
    (1 / 100000 : ℚ) ≤ |(1 : ℚ) * 1 - 1 * (-1)| ∧
    (edgesIntersection (K := ℚ) ⟨0, 0, 0⟩ ⟨1, 0, 0⟩ ⟨1, 1, 0⟩ ⟨-1, 1, 0⟩ = true ↔
      ∃ t u : ℚ, 0 ≤ t ∧ t ≤ 1 ∧ 0 ≤ u ∧ u ≤ 1 ∧
        0 + t * 1 = 1 + u * (-1) ∧ 0 + t * 1 = 0 + u * 1) :=
  ⟨by norm_num,
    edgesIntersection_iff_parametric (K := ℚ) ⟨0, 0, 0⟩ ⟨1, 0, 0⟩ ⟨1, 1, 0⟩ ⟨-1, 1, 0⟩
      (by norm_num)⟩

/-- C2: when the directions are parallel within the epsilon
(`|AD.x*BC.y - AD.y*BC.x| < 1e-5`), `edgesIntersection` returns false, and it does so whatever
the division operator is: the quotients by the cross product are never evaluated. -/
theorem edgesIntersection_parallel_false (A B : MPoint K) (AD BC : MVector K)
    (h : |AD.x * BC.y - AD.y * BC.x| < (1 / 100000 : K)) :
    edgesIntersection A B AD BC = false ∧
      ∀ dv : K → K → K, edgesIntersectionWith dv A B AD BC = false := by
  have hg : crossProduct2d AD BC < edgesIntersectionEps ∧
      crossProduct2d AD BC > -edgesIntersectionEps := by
    have := abs_lt.mp h
    exact ⟨this.2, this.1⟩
  exact ⟨edgesIntersectionWith_of_guard _ A B AD BC hg,
    fun dv => edgesIntersectionWith_of_guard dv A B AD BC hg⟩

/-- Witness for C2: two collinear, overlapping segments on the x axis. -/
theorem edgesIntersection_parallel_false_witness :
    |(2 : ℚ) * 0 - 0 * 2| < (1 / 100000 : ℚ) ∧
    edgesIntersection (K := ℚ) ⟨0, 0, 0⟩ ⟨1, 0, 0⟩ ⟨2, 0, 0⟩ ⟨2, 0, 0⟩ = false :=
  ⟨by norm_num,
    (edgesIntersection_parallel_false (K := ℚ) ⟨0, 0, 0⟩ ⟨1, 0, 0⟩ ⟨2, 0, 0⟩ ⟨2, 0, 0⟩
      (by norm_num)).1⟩

/-- C3 (evaluation at the failing input): with `A = (0,0)`, `B = (0,1)` and `P = (0,2)`, a
point of the line `AB` beyond `B`, `isPointOnEdge` answers true for every tolerance in
`[0,2)`, although the dot product of `P->A` and `P->B` is `2`, above the tolerance:
`dotProduct2d` subtracts the y term instead of adding it. -/
theorem isPointOnEdge_true_outside_segment (tol : K) (h0 : 0 ≤ tol) (h2 : tol < 2) :
    isPointOnEdge tol ⟨0, 2, 0⟩ ⟨0, 0, 0⟩ ⟨0, 1, 0⟩ = true ∧
      orient2d (⟨0, 0, 0⟩ : MPoint K) ⟨0, 1, 0⟩ ⟨0, 2, 0⟩ = 0 ∧
      dotProduct2d ((⟨0, 0, 0⟩ : MPoint K).sub ⟨0, 2, 0⟩)
        ((⟨0, 1, 0⟩ : MPoint K).sub ⟨0, 2, 0⟩) = -2 ∧
      tol < dotXY ((⟨0, 0, 0⟩ : MPoint K).sub ⟨0, 2, 0⟩)
        ((⟨0, 1, 0⟩ : MPoint K).sub ⟨0, 2, 0⟩) := by
  have hs : ¬ (-2 : K) > tol := by
    intro h
    have : (-2 : K) < 0 := by norm_num
    exact absurd (lt_trans h this) (not_lt.mpr h0)
  refine ⟨?_, ?_, ?_, ?_⟩
  · have haligned : arePointsAligned2d (⟨0, 2, 0⟩ : MPoint K) ⟨0, 0, 0⟩ ⟨0, 1, 0⟩ = true := by
      norm_num [arePointsAligned2d, crossProduct2d, MPoint.sub, EDGE_TOLERANCE]
    have hdot : dotProduct2d ((⟨0, 0, 0⟩ : MPoint K).sub ⟨0, 2, 0⟩)
        ((⟨0, 1, 0⟩ : MPoint K).sub ⟨0, 2, 0⟩) = -2 := by
      norm_num [dotProduct2d, MPoint.sub]
    unfold isPointOnEdge
    simp only [haligned, hdot, hs]
    simp
  · norm_num [orient2d, crossProduct2d, MPoint.sub]
  · norm_num [dotProduct2d, MPoint.sub]
  · have : dotXY ((⟨0, 0, 0⟩ : MPoint K).sub ⟨0, 2, 0⟩)
        ((⟨0, 1, 0⟩ : MPoint K).sub ⟨0, 2, 0⟩) = 2 := by
      norm_num [dotXY, MPoint.sub]
    rw [this]
    exact h2

/-- Witness for C3's evaluation, at the tolerance `1e-10`. -/
theorem isPointOnEdge_true_outside_segment_witness :
    isPointOnEdge (K := ℚ) (1 / 10000000000) ⟨0, 2, 0⟩ ⟨0, 0, 0⟩ ⟨0, 1, 0⟩ = true :=
  (isPointOnEdge_true_outside_segment (K := ℚ) (1 / 10000000000)
    (by norm_num) (by norm_num)).1

/-- C4 (counterexample): the bow-tie `(0,0),(1/500,0),(0,1/500),(1/500,1/500)`.  Its
segments `p0p3` and `p1p2` cross at their middles, but `cross(p3-p0, p2-p1) = 8e-6` is inside
the epsilon guard: `edgesIntersection` is false and the four points come out in the order
given, points 2 and 3 not swapped. -/
theorem createFace3d_windingCheck_small_bowtie_kept :
    segmentsCross (K := ℚ) ⟨0, 0, 0⟩ ⟨1 / 500, 1 / 500, 0⟩ ⟨1 / 500, 0, 0⟩ ⟨0, 1 / 500, 0⟩ ∧
    createFace3d_windingCheck (K := ℚ)
        [⟨0, 0, 0⟩, ⟨1 / 500, 0, 0⟩, ⟨0, 1 / 500, 0⟩, ⟨1 / 500, 1 / 500, 0⟩] =
      some [⟨0, 0, 0⟩, ⟨1 / 500, 0, 0⟩, ⟨0, 1 / 500, 0⟩, ⟨1 / 500, 1 / 500, 0⟩] ∧
    createFace3d_windingCheck (K := ℚ)
        [⟨0, 0, 0⟩, ⟨1 / 500, 0, 0⟩, ⟨0, 1 / 500, 0⟩, ⟨1 / 500, 1 / 500, 0⟩] ≠
      some [⟨0, 0, 0⟩, ⟨1 / 500, 0, 0⟩, ⟨1 / 500, 1 / 500, 0⟩, ⟨0, 1 / 500, 0⟩] := by
  have e : createFace3d_windingCheck (K := ℚ)
      [⟨0, 0, 0⟩, ⟨1 / 500, 0, 0⟩, ⟨0, 1 / 500, 0⟩, ⟨1 / 500, 1 / 500, 0⟩] =
      some [⟨0, 0, 0⟩, ⟨1 / 500, 0, 0⟩, ⟨0, 1 / 500, 0⟩, ⟨1 / 500, 1 / 500, 0⟩] := by
    rw [createFace3d_windingCheck_four]
    norm_num [edgesIntersection, edgesIntersectionWith, crossProduct2d, MPoint.sub,
      edgesIntersectionEps]
  refine ⟨?_, e, ?_⟩
  · exact ⟨1 / 2, 1 / 2, by norm_num, by norm_num, by norm_num, by norm_num,
      by norm_num, by norm_num⟩
  · rw [e]
    norm_num

/-- C4 (amended): on four accumulated points the winding check of `createFace3d` keeps `p0`,
`p1` and yields `(p0,p1,p3,p2)` when `edgesIntersection(p0, p1, p3-p0, p2-p1)` is true and
`(p0,p1,p2,p3)` when it is false; a bow-tie input whose segments `p0p3` and `p1p2` cross with
directions not parallel within the epsilon (`|cross(p3-p0, p2-p1)| >= 1e-5`) comes out with
points 2 and 3 swapped. -/
theorem createFace3d_windingCheck_swap (p0 p1 p2 p3 : MPoint K) :
    (edgesIntersection p0 p1 (p3.sub p0) (p2.sub p1) = true →
      createFace3d_windingCheck [p0, p1, p2, p3] = some [p0, p1, p3, p2]) ∧
    (edgesIntersection p0 p1 (p3.sub p0) (p2.sub p1) = false →
      createFace3d_windingCheck [p0, p1, p2, p3] = some [p0, p1, p2, p3]) ∧
    ((1 / 100000 : K) ≤ |(p3.x - p0.x) * (p2.y - p1.y) - (p3.y - p0.y) * (p2.x - p1.x)| →
      segmentsCross p0 p3 p1 p2 →
      createFace3d_windingCheck [p0, p1, p2, p3] = some [p0, p1, p3, p2]) := by
  refine ⟨?_, ?_, ?_⟩
  · intro h
    rw [createFace3d_windingCheck_four, if_pos h]
  · intro h
    rw [createFace3d_windingCheck_four, if_neg (by simp [h])]
  · intro heps hcross
    have h : edgesIntersection p0 p1 (p3.sub p0) (p2.sub p1) = true :=
      (edgesIntersection_true_iff_exists p0 p1 (p3.sub p0) (p2.sub p1) heps).mpr hcross
    rw [createFace3d_windingCheck_four, if_pos h]

/-- Witness for C4: the unit square clicked in bow-tie order. -/
theorem createFace3d_windingCheck_swap_witness :
    createFace3d_windingCheck (K := ℚ) [⟨0, 0, 0⟩, ⟨1, 0, 0⟩, ⟨0, 1, 0⟩, ⟨1, 1, 0⟩] =
      some [⟨0, 0, 0⟩, ⟨1, 0, 0⟩, ⟨1, 1, 0⟩, ⟨0, 1, 0⟩] :=
  (createFace3d_windingCheck_swap (K := ℚ) ⟨0, 0, 0⟩ ⟨1, 0, 0⟩ ⟨0, 1, 0⟩ ⟨1, 1, 0⟩).2.2
    (by norm_num) ⟨1 / 2, 1 / 2, by norm_num, by norm_num, by norm_num, by norm_num,
      by norm_num, by norm_num⟩

/-! ### Orientation lemmas for the winding check -/

theorem unit_div_cases (n D : K) (h0 : 0 ≤ n / D) (h1 : n / D ≤ 1) (hD : D ≠ 0) :
    (0 < D ∧ 0 ≤ n ∧ n ≤ D) ∨ (D < 0 ∧ D ≤ n ∧ n ≤ 0) := by
  rcases lt_or_gt_of_ne hD with hneg | hpos
  · right
    refine ⟨hneg, ?_, ?_⟩
    · exact (div_le_one_of_neg hneg).mp h1
    · by_contra hn
      have : n / D < 0 := div_neg_of_pos_of_neg (not_le.mp hn) hneg
      exact absurd h0 (not_le.mpr this)
  · left
    refine ⟨hpos, ?_, ?_⟩
    · by_contra hn
      have : n / D < 0 := div_neg_of_neg_of_pos (not_le.mp hn) hpos
      exact absurd h0 (not_le.mpr this)
    · exact (div_le_one hpos).mp h1

/-- Sign form of a positive answer of `edgesIntersection`. -/
theorem edgesIntersection_true_cases (A B : MPoint K) (AD BC : MVector K)
    (h : edgesIntersection A B AD BC = true) :
    (0 < crossProduct2d AD BC ∧
      0 ≤ crossProduct2d (B.sub A) BC ∧ crossProduct2d (B.sub A) BC ≤ crossProduct2d AD BC ∧
      0 ≤ crossProduct2d (B.sub A) AD ∧ crossProduct2d (B.sub A) AD ≤ crossProduct2d AD BC) ∨
    (crossProduct2d AD BC < 0 ∧
      crossProduct2d AD BC ≤ crossProduct2d (B.sub A) BC ∧ crossProduct2d (B.sub A) BC ≤ 0 ∧
      crossProduct2d AD BC ≤ crossProduct2d (B.sub A) AD ∧ crossProduct2d (B.sub A) AD ≤ 0) := by
  obtain ⟨hg, h1, h2, h3, h4⟩ := (edgesIntersection_eq_true_iff A B AD BC).mp h
  have hD : crossProduct2d AD BC ≠ 0 := by
    intro h0
    apply hg
    rw [h0]
    exact ⟨edgesIntersectionEps_pos, neg_lt_zero.mpr edgesIntersectionEps_pos⟩
  rcases unit_div_cases _ _ h1 h2 hD with ⟨p, a1, a2⟩ | ⟨p, a1, a2⟩
  · rcases unit_div_cases _ _ h3 h4 hD with ⟨-, b1, b2⟩ | ⟨q, -, -⟩
    · exact Or.inl ⟨p, a1, a2, b1, b2⟩
    · exact absurd p (not_lt.mpr (le_of_lt q))
  · rcases unit_div_cases _ _ h3 h4 hD with ⟨q, -, -⟩ | ⟨-, b1, b2⟩
    · exact absurd p (not_lt.mpr (le_of_lt q))
    · exact Or.inr ⟨p, a1, a2, b1, b2⟩

theorem segmentsCross_symm (P Q R S : MPoint K) (h : segmentsCross P Q R S) :
    segmentsCross R S P Q := by
  obtain ⟨t, u, ht0, ht1, hu0, hu1, ex, ey⟩ := h
  exact ⟨u, t, hu0, hu1, ht0, ht1, ex.symm, ey.symm⟩

theorem segmentsCross_reverse (P Q R S : MPoint K) (h : segmentsCross P Q R S) :
    segmentsCross P Q S R := by
  obtain ⟨t, u, ht0, ht1, hu0, hu1, ex, ey⟩ := h
  refine ⟨t, 1 - u, ht0, ht1, by linarith, by linarith, ?_, ?_⟩
  · linear_combination ex
  · linear_combination ey

/-- Crossing segments: the end points of the second lie on opposite sides (weakly) of the
line through the first. -/
theorem segmentsCross_orient (P Q R S : MPoint K) (h : segmentsCross P Q R S) :
    orient2d P Q R * orient2d P Q S ≤ 0 := by
  obtain ⟨t, u, -, -, hu0, hu1, ex, ey⟩ := h
  have key : (1 - u) * orient2d P Q R + u * orient2d P Q S = 0 := by
    simp only [orient2d, crossProduct2d, MPoint.sub]
    linear_combination (-(Q.x - P.x)) * ey + (Q.y - P.y) * ex
  have e : orient2d P Q R * orient2d P Q S =
      -(u * (orient2d P Q S * orient2d P Q S) +
        (1 - u) * (orient2d P Q R * orient2d P Q R)) := by
    linear_combination (orient2d P Q R + orient2d P Q S) * key
  rw [e]
  have a1 := mul_nonneg hu0 (mul_self_nonneg (orient2d P Q S))
  have a2 := mul_nonneg (sub_nonneg.mpr hu1) (mul_self_nonneg (orient2d P Q R))
  linarith

/-- When the test is true for `(p0,p1,p2,p3)` and the four points are in general position,
the turns `p0 p1 p2` and `p0 p1 p3` go the same way, and `p0 p1 p3`, `p1 p2 p3` go opposite
ways. -/
theorem edgesIntersection_true_orient (p0 p1 p2 p3 : MPoint K)
    (hgp : generalPosition p0 p1 p2 p3)
    (h : edgesIntersection p0 p1 (p3.sub p0) (p2.sub p1) = true) :
    0 < orient2d p0 p1 p2 * orient2d p0 p1 p3 ∧
      orient2d p0 p1 p3 * orient2d p1 p2 p3 < 0 := by
  obtain ⟨-, ha, hb, -, hd⟩ := hgp
  have e1 : crossProduct2d (p1.sub p0) (p2.sub p1) = orient2d p0 p1 p2 := by
    simp only [orient2d, crossProduct2d, MPoint.sub]
    ring
  have e2 : crossProduct2d (p1.sub p0) (p3.sub p0) = orient2d p0 p1 p3 := rfl
  have e3 : crossProduct2d (p3.sub p0) (p2.sub p1) =
      orient2d p0 p1 p2 - orient2d p1 p2 p3 := by
    simp only [orient2d, crossProduct2d, MPoint.sub]
    ring
  have c := edgesIntersection_true_cases p0 p1 (p3.sub p0) (p2.sub p1) h
  rw [e1, e2, e3] at c
  rcases c with ⟨-, a0, a1, b0, -⟩ | ⟨-, a0, a1, -, b1⟩
  · have pa : 0 < orient2d p0 p1 p2 := lt_of_le_of_ne a0 (Ne.symm ha)
    have pb : 0 < orient2d p0 p1 p3 := lt_of_le_of_ne b0 (Ne.symm hb)
    have pd : orient2d p1 p2 p3 < 0 := lt_of_le_of_ne (by linarith) hd
    exact ⟨mul_pos pa pb, mul_neg_of_pos_of_neg pb pd⟩
  · have pa : orient2d p0 p1 p2 < 0 := lt_of_le_of_ne a1 ha
    have pb : orient2d p0 p1 p3 < 0 := lt_of_le_of_ne b1 hb
    have pd : 0 < orient2d p1 p2 p3 := lt_of_le_of_ne (by linarith) (Ne.symm hd)
    exact ⟨mul_pos_of_neg_of_neg pa pb, mul_neg_of_neg_of_pos pb pd⟩

/-- C5 (counterexample): two inputs in general position whose output is not simple.  For
`(0,0),(2,2),(3,0),(0,3)` the check does not swap and the sides `q0q1`, `q2q3` cross; for the
bow-tie of side `1/1000` the directions are parallel within the epsilon, the check does not
swap and the sides `q1q2`, `q3q0` cross. -/
theorem createFace3d_windingCheck_not_simple :
    (generalPosition (K := ℚ) ⟨0, 0, 0⟩ ⟨2, 2, 0⟩ ⟨3, 0, 0⟩ ⟨0, 3, 0⟩ ∧
      createFace3d_windingCheck (K := ℚ) [⟨0, 0, 0⟩, ⟨2, 2, 0⟩, ⟨3, 0, 0⟩, ⟨0, 3, 0⟩] =
        some [⟨0, 0, 0⟩, ⟨2, 2, 0⟩, ⟨3, 0, 0⟩, ⟨0, 3, 0⟩] ∧
      segmentsCross (K := ℚ) ⟨0, 0, 0⟩ ⟨2, 2, 0⟩ ⟨3, 0, 0⟩ ⟨0, 3, 0⟩) ∧
    (generalPosition (K := ℚ) ⟨0, 0, 0⟩ ⟨1 / 1000, 0, 0⟩ ⟨0, 1 / 1000, 0⟩
        ⟨1 / 1000, 1 / 1000, 0⟩ ∧
      createFace3d_windingCheck (K := ℚ)
          [⟨0, 0, 0⟩, ⟨1 / 1000, 0, 0⟩, ⟨0, 1 / 1000, 0⟩, ⟨1 / 1000, 1 / 1000, 0⟩] =
        some [⟨0, 0, 0⟩, ⟨1 / 1000, 0, 0⟩, ⟨0, 1 / 1000, 0⟩, ⟨1 / 1000, 1 / 1000, 0⟩] ∧
      segmentsCross (K := ℚ) ⟨1 / 1000, 0, 0⟩ ⟨0, 1 / 1000, 0⟩ ⟨1 / 1000, 1 / 1000, 0⟩
        ⟨0, 0, 0⟩) := by
  refine ⟨⟨?_, ?_, ?_⟩, ?_, ?_, ?_⟩
  · norm_num [generalPosition, sameXY, orient2d, crossProduct2d, MPoint.sub]
  · rw [createFace3d_windingCheck_four]
    norm_num [edgesIntersection, edgesIntersectionWith, crossProduct2d, MPoint.sub,
      edgesIntersectionEps]
  · exact ⟨3 / 4, 1 / 2, by norm_num, by norm_num, by norm_num, by norm_num,
      by norm_num, by norm_num⟩
  · norm_num [generalPosition, sameXY, orient2d, crossProduct2d, MPoint.sub]
  · rw [createFace3d_windingCheck_four]
    norm_num [edgesIntersection, edgesIntersectionWith, crossProduct2d, MPoint.sub,
      edgesIntersectionEps]
  · exact ⟨1 / 2, 1 / 2, by norm_num, by norm_num, by norm_num, by norm_num,
      by norm_num, by norm_num⟩

/-- C5 (amended): for four points in general position whose directions `p3-p0`, `p2-p1` are
not parallel within the epsilon and whose sides `p0p1`, `p2p3` do not cross, the quadrilateral
`q0,q1,q2,q3` output by the winding check is simple: neither pair of opposite sides
crosses. -/
theorem createFace3d_windingCheck_simple (p0 p1 p2 p3 : MPoint K)
    (hgp : generalPosition p0 p1 p2 p3)
    (heps : (1 / 100000 : K) ≤
      |(p3.x - p0.x) * (p2.y - p1.y) - (p3.y - p0.y) * (p2.x - p1.x)|)
    (hside : ¬ segmentsCross p0 p1 p2 p3) :
    ∃ q0 q1 q2 q3 : MPoint K,
      createFace3d_windingCheck [p0, p1, p2, p3] = some [q0, q1, q2, q3] ∧
      ¬ segmentsCross q0 q1 q2 q3 ∧ ¬ segmentsCross q1 q2 q3 q0 := by
  by_cases h : edgesIntersection p0 p1 (p3.sub p0) (p2.sub p1) = true
  · refine ⟨p0, p1, p3, p2, ?_, ?_, ?_⟩
    · rw [createFace3d_windingCheck_four, if_pos h]
    · intro hc
      exact hside (segmentsCross_reverse _ _ _ _ hc)
    · intro hc
      obtain ⟨-, hbd⟩ := edgesIntersection_true_orient p0 p1 p2 p3 hgp h
      have ho := segmentsCross_orient _ _ _ _ hc
      have e1 : orient2d p1 p3 p2 = -orient2d p1 p2 p3 := by
        simp only [orient2d, crossProduct2d, MPoint.sub]
        ring
      have e2 : orient2d p1 p3 p0 = orient2d p0 p1 p3 := by
        simp only [orient2d, crossProduct2d, MPoint.sub]
        ring
      rw [e1, e2] at ho
      linarith
  · refine ⟨p0, p1, p2, p3, ?_, hside, ?_⟩
    · rw [createFace3d_windingCheck_four, if_neg h]
    · rintro ⟨t, u, ht0, ht1, hu0, hu1, ex, ey⟩
      apply h
      refine (edgesIntersection_true_iff_exists p0 p1 (p3.sub p0) (p2.sub p1) heps).mpr
        ⟨1 - u, t, by linarith, by linarith, ht0, ht1, ?_, ?_⟩
      · simp only [MPoint.sub]
        linear_combination -ex
      · simp only [MPoint.sub]
        linear_combination -ey

/-- Witness for C5 (amended): the unit square clicked in bow-tie order. -/
theorem createFace3d_windingCheck_simple_witness :
    ∃ q0 q1 q2 q3 : MPoint ℚ,
      createFace3d_windingCheck (K := ℚ) [⟨0, 0, 0⟩, ⟨1, 0, 0⟩, ⟨0, 1, 0⟩, ⟨1, 1, 0⟩] =
        some [q0, q1, q2, q3] ∧
      ¬ segmentsCross q0 q1 q2 q3 ∧ ¬ segmentsCross q1 q2 q3 q0 :=
  createFace3d_windingCheck_simple (K := ℚ) ⟨0, 0, 0⟩ ⟨1, 0, 0⟩ ⟨0, 1, 0⟩ ⟨1, 1, 0⟩
    (by norm_num [generalPosition, sameXY, orient2d, crossProduct2d, MPoint.sub])
    (by norm_num)
    (by
      rintro ⟨t, u, -, -, -, -, -, ey⟩
      norm_num at ey)

/-- If the test is true both for `(p0,p1,p2,p3)` and for the swapped `(p0,p1,p3,p2)`, then
`p0`, `p1` coincide in the x,y plane or `p2`, `p3` do. -/
theorem edgesIntersection_twice_degenerate (p0 p1 p2 p3 : MPoint K)
    (h : edgesIntersection p0 p1 (p3.sub p0) (p2.sub p1) = true)
    (h' : edgesIntersection p0 p1 (p2.sub p0) (p3.sub p1) = true) :
    sameXY p0 p1 ∨ sameXY p2 p3 := by
  have c := edgesIntersection_true_cases p0 p1 (p3.sub p0) (p2.sub p1) h
  have c' := edgesIntersection_true_cases p0 p1 (p2.sub p0) (p3.sub p1) h'
  simp only [crossProduct2d, MPoint.sub] at c c'
  have hD : (p3.x - p0.x) * (p2.y - p1.y) - (p3.y - p0.y) * (p2.x - p1.x) ≠ 0 := by
    rcases c with ⟨q, -⟩ | ⟨q, -⟩
    · exact ne_of_gt q
    · exact ne_of_lt q
  have key :
      ((p1.x - p0.x) * (p2.y - p1.y) - (p1.y - p0.y) * (p2.x - p1.x) = 0 ∧
        (p1.x - p0.x) * (p3.y - p0.y) - (p1.y - p0.y) * (p3.x - p0.x) = 0) ∨
      ((p1.x - p0.x) * (p2.y - p1.y) - (p1.y - p0.y) * (p2.x - p1.x) =
          (p3.x - p0.x) * (p2.y - p1.y) - (p3.y - p0.y) * (p2.x - p1.x) ∧
        (p1.x - p0.x) * (p3.y - p0.y) - (p1.y - p0.y) * (p3.x - p0.x) =
          (p3.x - p0.x) * (p2.y - p1.y) - (p3.y - p0.y) * (p2.x - p1.x)) := by
    rcases c with ⟨d, a0, a1, b0, b1⟩ | ⟨d, a0, a1, b0, b1⟩ <;>
      rcases c' with ⟨d', a0', a1', b0', b1'⟩ | ⟨d', a0', a1', b0', b1'⟩
    · right
      constructor <;> apply le_antisymm <;> linarith
    · left
      constructor <;> apply le_antisymm <;> linarith
    · left
      constructor <;> apply le_antisymm <;> linarith
    · right
      constructor <;> apply le_antisymm <;> linarith
  rcases key with ⟨k1, k2⟩ | ⟨k1, k2⟩
  · left
    have hx : (p1.x - p0.x) *
        ((p3.x - p0.x) * (p2.y - p1.y) - (p3.y - p0.y) * (p2.x - p1.x)) = 0 := by
      linear_combination (p3.x - p0.x) * k1 - (p2.x - p1.x) * k2
    have hy : (p1.y - p0.y) *
        ((p3.x - p0.x) * (p2.y - p1.y) - (p3.y - p0.y) * (p2.x - p1.x)) = 0 := by
      linear_combination (p3.y - p0.y) * k1 - (p2.y - p1.y) * k2
    have hx' := (mul_eq_zero.mp hx).resolve_right hD
    have hy' := (mul_eq_zero.mp hy).resolve_right hD
    exact ⟨by linarith, by linarith⟩
  · right
    have hx : (p3.x - p2.x) *
        ((p3.x - p0.x) * (p2.y - p1.y) - (p3.y - p0.y) * (p2.x - p1.x)) = 0 := by
      linear_combination (p2.x - p1.x - (p3.x - p0.x)) * k1 + (p2.x - p1.x) * (k2 - k1)
    have hy : (p3.y - p2.y) *
        ((p3.x - p0.x) * (p2.y - p1.y) - (p3.y - p0.y) * (p2.x - p1.x)) = 0 := by
      linear_combination (p2.y - p1.y - (p3.y - p0.y)) * k1 + (p2.y - p1.y) * (k2 - k1)
    have hx' := (mul_eq_zero.mp hx).resolve_right hD
    have hy' := (mul_eq_zero.mp hy).resolve_right hD
    exact ⟨by linarith, by linarith⟩

/-- C6 (counterexample): the winding check applied twice differs from applying it once, for
`p0 = p1 = (0,0)`, `p2 = (1,0)`, `p3 = (0,1)`, and for `p0 = (0,0)`, `p1 = (1,0)` with
`p2 = (0,1,0)`, `p3 = (0,1,1)` equal in x,y: both applications swap. -/
theorem createFace3d_windingCheck_not_idempotent :
    ((createFace3d_windingCheck (K := ℚ)
        [⟨0, 0, 0⟩, ⟨0, 0, 0⟩, ⟨1, 0, 0⟩, ⟨0, 1, 0⟩]).bind createFace3d_windingCheck ≠
      createFace3d_windingCheck (K := ℚ) [⟨0, 0, 0⟩, ⟨0, 0, 0⟩, ⟨1, 0, 0⟩, ⟨0, 1, 0⟩]) ∧
    ((createFace3d_windingCheck (K := ℚ)
        [⟨0, 0, 0⟩, ⟨1, 0, 0⟩, ⟨0, 1, 0⟩, ⟨0, 1, 1⟩]).bind createFace3d_windingCheck ≠
      createFace3d_windingCheck (K := ℚ) [⟨0, 0, 0⟩, ⟨1, 0, 0⟩, ⟨0, 1, 0⟩, ⟨0, 1, 1⟩]) := by
  have a1 : createFace3d_windingCheck (K := ℚ)
      [⟨0, 0, 0⟩, ⟨0, 0, 0⟩, ⟨1, 0, 0⟩, ⟨0, 1, 0⟩] =
      some [⟨0, 0, 0⟩, ⟨0, 0, 0⟩, ⟨0, 1, 0⟩, ⟨1, 0, 0⟩] := by
    rw [createFace3d_windingCheck_four]
    norm_num [edgesIntersection, edgesIntersectionWith, crossProduct2d, MPoint.sub,
      edgesIntersectionEps]
  have a2 : createFace3d_windingCheck (K := ℚ)
      [⟨0, 0, 0⟩, ⟨0, 0, 0⟩, ⟨0, 1, 0⟩, ⟨1, 0, 0⟩] =
      some [⟨0, 0, 0⟩, ⟨0, 0, 0⟩, ⟨1, 0, 0⟩, ⟨0, 1, 0⟩] := by
    rw [createFace3d_windingCheck_four]
    norm_num [edgesIntersection, edgesIntersectionWith, crossProduct2d, MPoint.sub,
      edgesIntersectionEps]
  have b1 : createFace3d_windingCheck (K := ℚ)
      [⟨0, 0, 0⟩, ⟨1, 0, 0⟩, ⟨0, 1, 0⟩, ⟨0, 1, 1⟩] =
      some [⟨0, 0, 0⟩, ⟨1, 0, 0⟩, ⟨0, 1, 1⟩, ⟨0, 1, 0⟩] := by
    rw [createFace3d_windingCheck_four]
    norm_num [edgesIntersection, edgesIntersectionWith, crossProduct2d, MPoint.sub,
      edgesIntersectionEps]
  have b2 : createFace3d_windingCheck (K := ℚ)
      [⟨0, 0, 0⟩, ⟨1, 0, 0⟩, ⟨0, 1, 1⟩, ⟨0, 1, 0⟩] =
      some [⟨0, 0, 0⟩, ⟨1, 0, 0⟩, ⟨0, 1, 0⟩, ⟨0, 1, 1⟩] := by
    rw [createFace3d_windingCheck_four]
    norm_num [edgesIntersection, edgesIntersectionWith, crossProduct2d, MPoint.sub,
      edgesIntersectionEps]
  constructor
  · rw [a1, Option.some_bind, a2]
    norm_num
  · rw [b1, Option.some_bind, b2]
    norm_num

/-- C6 (amended): for four points whose first two points differ in the x,y plane and whose
last two points differ in the x,y plane, the winding check is idempotent:
`fix(fix(Q)) = fix(Q)`. -/
theorem createFace3d_windingCheck_idempotent (p0 p1 p2 p3 : MPoint K)
    (h01 : ¬ sameXY p0 p1) (h23 : ¬ sameXY p2 p3) :
    (createFace3d_windingCheck [p0, p1, p2, p3]).bind createFace3d_windingCheck =
      createFace3d_windingCheck [p0, p1, p2, p3] := by
  by_cases h : edgesIntersection p0 p1 (p3.sub p0) (p2.sub p1) = true
  · have h' : ¬ edgesIntersection p0 p1 (p2.sub p0) (p3.sub p1) = true := by
      intro h'
      rcases edgesIntersection_twice_degenerate p0 p1 p2 p3 h h' with d | d
      · exact h01 d
      · exact h23 d
    rw [createFace3d_windingCheck_four, if_pos h, Option.some_bind,
      createFace3d_windingCheck_four, if_neg h']
  · rw [createFace3d_windingCheck_four, if_neg h, Option.some_bind,
      createFace3d_windingCheck_four, if_neg h]

/-- Witness for C6 (amended): the unit square clicked in bow-tie order. -/
theorem createFace3d_windingCheck_idempotent_witness :
    (createFace3d_windingCheck (K := ℚ)
        [⟨0, 0, 0⟩, ⟨1, 0, 0⟩, ⟨0, 1, 0⟩, ⟨1, 1, 0⟩]).bind createFace3d_windingCheck =
      createFace3d_windingCheck (K := ℚ) [⟨0, 0, 0⟩, ⟨1, 0, 0⟩, ⟨0, 1, 0⟩, ⟨1, 1, 0⟩] :=
  createFace3d_windingCheck_idempotent (K := ℚ) ⟨0, 0, 0⟩ ⟨1, 0, 0⟩ ⟨0, 1, 0⟩ ⟨1, 1, 0⟩
    (by norm_num [sameXY]) (by norm_num [sameXY])

/-- C7: for the vertices of a strictly convex quadrilateral listed in cyclic order,
`edgesIntersection(p0, p1, p3-p0, p2-p1)` is false and the winding check of `createFace3d`
keeps the points in the order clicked. -/
theorem createFace3d_windingCheck_convex (p0 p1 p2 p3 : MPoint K)
    (hc : strictlyConvexCyclic p0 p1 p2 p3) :
    edgesIntersection p0 p1 (p3.sub p0) (p2.sub p1) = false ∧
      createFace3d_windingCheck [p0, p1, p2, p3] = some [p0, p1, p2, p3] := by
  have hf : ¬ edgesIntersection p0 p1 (p3.sub p0) (p2.sub p1) = true := by
    intro h
    have e1 : crossProduct2d (p1.sub p0) (p2.sub p1) = orient2d p0 p1 p2 := by
      simp only [orient2d, crossProduct2d, MPoint.sub]
      ring
    have e3 : crossProduct2d (p3.sub p0) (p2.sub p1) =
        orient2d p0 p1 p2 - orient2d p1 p2 p3 := by
      simp only [orient2d, crossProduct2d, MPoint.sub]
      ring
    have c := edgesIntersection_true_cases p0 p1 (p3.sub p0) (p2.sub p1) h
    rw [e1, e3] at c
    rcases hc with ⟨a, d, -, -⟩ | ⟨a, d, -, -⟩ <;>
      rcases c with ⟨-, a0, a1, -, -⟩ | ⟨-, a0, a1, -, -⟩ <;> linarith
  refine ⟨by simpa using hf, ?_⟩
  rw [createFace3d_windingCheck_four, if_neg hf]

/-- Witness for C7: the unit square listed counter-clockwise. -/
theorem createFace3d_windingCheck_convex_witness :
    strictlyConvexCyclic (K := ℚ) ⟨0, 0, 0⟩ ⟨1, 0, 0⟩ ⟨1, 1, 0⟩ ⟨0, 1, 0⟩ ∧
    createFace3d_windingCheck (K := ℚ) [⟨0, 0, 0⟩, ⟨1, 0, 0⟩, ⟨1, 1, 0⟩, ⟨0, 1, 0⟩] =
      some [⟨0, 0, 0⟩, ⟨1, 0, 0⟩, ⟨1, 1, 0⟩, ⟨0, 1, 0⟩] :=
  ⟨by norm_num [strictlyConvexCyclic, orient2d, crossProduct2d, MPoint.sub],
    (createFace3d_windingCheck_convex (K := ℚ) ⟨0, 0, 0⟩ ⟨1, 0, 0⟩ ⟨1, 1, 0⟩ ⟨0, 1, 0⟩
      (by norm_num [strictlyConvexCyclic, orient2d, crossProduct2d, MPoint.sub])).2⟩

/-! ### Edge extension -/

/-- C8: whenever `projectFace2D` succeeds inside `computeTmpFaceOnEdgeExtend`, the preview
face has the stored 3D end points of the intersected edge as its first two points (index 0 is
mesh point `edgePointIndexes[1]`, index 1 is mesh point `edgePointIndexes[0]`), and every
point from index 2 on is the one `projectFace2D` returned. -/
theorem computeTmpFaceOnEdgeExtend_keeps_edge (worldToCamera : MPoint K → MPoint K)
    (projectFace2D : List (MPoint K) → Bool → MVector K → Bool × List (MPoint K))
    (meshPoints : List (MPoint K)) (data : IntersectionData K) (M : MPoint K)
    (e3D_0 e3D_1 : MPoint K) (face : List (MPoint K))
    (h0 : meshPoints[data.edgePointIndexes.1]? = some e3D_0)
    (h1 : meshPoints[data.edgePointIndexes.2]? = some e3D_1)
    (hp : projectFace2D
      (computeTmpFaceOnEdgeExtend_previewPoints2D (worldToCamera e3D_0) (worldToCamera e3D_1)
        M data.edgeRatio data.edgeHeight2D) true data.edgeHeight3D = (true, face))
    (hlen : 2 ≤ face.length) :
    ∃ preview : List (MPoint K),
      computeTmpFaceOnEdgeExtend worldToCamera projectFace2D meshPoints data M =
        some preview ∧
      preview.length = face.length ∧
      preview[0]? = some e3D_1 ∧ preview[1]? = some e3D_0 ∧
      ∀ i : Nat, 2 ≤ i → preview[i]? = face[i]? := by
  refine ⟨(face.set 0 e3D_1).set 1 e3D_0, ?_, ?_, ?_, ?_, ?_⟩
  · unfold computeTmpFaceOnEdgeExtend
    simp only [h0, h1, hp]
    simp
  · simp
  · rw [List.getElem?_set_ne (by decide), List.getElem?_set_self (by omega)]
  · rw [List.getElem?_set_self (by simp; omega)]
  · intro i hi
    rw [List.getElem?_set_ne (by omega), List.getElem?_set_ne (by omega)]

/-- Witness for C8: a mesh of two points, a projection that returns four points. -/
theorem computeTmpFaceOnEdgeExtend_keeps_edge_witness :
    ∃ preview : List (MPoint ℚ),
      computeTmpFaceOnEdgeExtend (K := ℚ) (fun p => p)
          (fun _ _ _ => (true, [⟨9, 9, 9⟩, ⟨8, 8, 8⟩, ⟨7, 7, 7⟩, ⟨6, 6, 6⟩]))
          [⟨0, 0, 5⟩, ⟨0, 1, 5⟩] ⟨(0, 1), ⟨0, 1, 0⟩, ⟨0, 1, 0⟩, 1 / 2⟩ ⟨1, 1 / 2, 5⟩ =
        some preview ∧
      preview.length = 4 ∧
      preview[0]? = some ⟨0, 1, 5⟩ ∧ preview[1]? = some ⟨0, 0, 5⟩ ∧
      ∀ i : Nat, 2 ≤ i →
        preview[i]? = ([⟨9, 9, 9⟩, ⟨8, 8, 8⟩, ⟨7, 7, 7⟩, ⟨6, 6, 6⟩] : List (MPoint ℚ))[i]? :=
  computeTmpFaceOnEdgeExtend_keeps_edge (K := ℚ) (fun p => p)
    (fun _ _ _ => (true, [⟨9, 9, 9⟩, ⟨8, 8, 8⟩, ⟨7, 7, 7⟩, ⟨6, 6, 6⟩]))
    [⟨0, 0, 5⟩, ⟨0, 1, 5⟩] ⟨(0, 1), ⟨0, 1, 0⟩, ⟨0, 1, 0⟩, 1 / 2⟩ ⟨1, 1 / 2, 5⟩
    ⟨0, 0, 5⟩ ⟨0, 1, 5⟩ [⟨9, 9, 9⟩, ⟨8, 8, 8⟩, ⟨7, 7, 7⟩, ⟨6, 6, 6⟩]
    rfl rfl rfl (by decide)

/-- C9: for every pointer position `M`, ratio `r` and 2D height `h`, the preview quad built
by `computeTmpFaceOnEdgeExtend` is `[edgePoint1, edgePoint0, P3, P4]` with
`P3 = M - (1-r)*h`, `P4 = M + r*h`, and `P4 - P3 = h` whatever `r` is. -/
theorem computeTmpFaceOnEdgeExtend_previewPoints2D_parallel (edgePoint0 edgePoint1 M : MPoint K)
    (r : K) (h : MVector K) :
    ∃ P3 P4 : MPoint K,
      computeTmpFaceOnEdgeExtend_previewPoints2D edgePoint0 edgePoint1 M r h =
        [edgePoint1, edgePoint0, P3, P4] ∧
      P3 = M.subV (MVector.smul (1 - r) h) ∧
      P4 = M.addV (MVector.smul r h) ∧
      P4.sub P3 = h := by
  refine ⟨_, _, rfl, rfl, rfl, ?_⟩
  cases h with
  | mk hx hy hz =>
    simp only [MPoint.sub, MPoint.addV, MPoint.subV, MVector.smul, MVector.mk.injEq]
    refine ⟨?_, ?_, ?_⟩ <;> ring


theorem normSq_pos_of_ne (P Q : MPoint K) (h : P ≠ Q) : 0 < (Q.sub P).normSq := by
  by_contra hn
  have hx := mul_self_nonneg (Q.x - P.x)
  have hy := mul_self_nonneg (Q.y - P.y)
  have hz := mul_self_nonneg (Q.z - P.z)
  simp only [MVector.normSq, MPoint.sub] at hn
  have zx : (Q.x - P.x) * (Q.x - P.x) = 0 := by linarith
  have zy : (Q.y - P.y) * (Q.y - P.y) = 0 := by linarith
  have zz : (Q.z - P.z) * (Q.z - P.z) = 0 := by linarith
  apply h
  cases P
  cases Q
  simp only [MPoint.mk.injEq]
  simp only at zx zy zz
  exact ⟨by linarith [mul_self_eq_zero.mp zx], by linarith [mul_self_eq_zero.mp zy],
    by linarith [mul_self_eq_zero.mp zz]⟩

/-- C10: for an edge whose camera-space end points `e0`, `e1` are distinct and a pointer
position `M = e0 + s*(e1 - e0)` of the segment (`0 <= s <= 1`), `computeEdgeIntersectionData`
stores `edgeHeight2D = e1 - e0`, `edgeHeight3D = (3D end point 1) - (3D end point 0)` and
`edgeRatio = |e1 - M| / |e1 - e0|`; the ratio equals `1 - s` and lies in `[0,1]`. -/
theorem computeEdgeIntersectionData_ratio (worldToCamera : MPoint K → MPoint K)
    (length : MVector K → K) (meshPoints : List (MPoint K)) (data : IntersectionData K)
    (M e3D_0 e3D_1 : MPoint K) (s : K)
    (h0 : meshPoints[data.edgePointIndexes.1]? = some e3D_0)
    (h1 : meshPoints[data.edgePointIndexes.2]? = some e3D_1)
    (hne : worldToCamera e3D_0 ≠ worldToCamera e3D_1)
    (hs0 : 0 ≤ s) (hs1 : s ≤ 1)
    (hM : M = (worldToCamera e3D_0).addV
      (MVector.smul s ((worldToCamera e3D_1).sub (worldToCamera e3D_0))))
    (hlenM : isLengthOf length ((worldToCamera e3D_1).sub M))
    (hlenE : isLengthOf length ((worldToCamera e3D_1).sub (worldToCamera e3D_0))) :
    ∃ stored : IntersectionData K,
      computeEdgeIntersectionData worldToCamera length meshPoints data M = some stored ∧
      stored.edgeHeight2D = (worldToCamera e3D_1).sub (worldToCamera e3D_0) ∧
      stored.edgeHeight3D = e3D_1.sub e3D_0 ∧
      stored.edgeRatio = length ((worldToCamera e3D_1).sub M) /
        length ((worldToCamera e3D_1).sub (worldToCamera e3D_0)) ∧
      stored.edgeRatio = 1 - s ∧
      0 ≤ stored.edgeRatio ∧ stored.edgeRatio ≤ 1 := by
  obtain ⟨lM0, lMsq⟩ := hlenM
  obtain ⟨lE0, lEsq⟩ := hlenE
  have hpos := normSq_pos_of_ne _ _ hne
  have hEne : length ((worldToCamera e3D_1).sub (worldToCamera e3D_0)) ≠ 0 := by
    intro hz
    rw [hz, mul_zero] at lEsq
    rw [← lEsq] at hpos
    exact lt_irrefl _ hpos
  have hscale : ((worldToCamera e3D_1).sub M).normSq =
      (1 - s) * (1 - s) * ((worldToCamera e3D_1).sub (worldToCamera e3D_0)).normSq := by
    rw [hM]
    simp only [MVector.normSq, MPoint.sub, MPoint.addV, MVector.smul]
    ring
  have hsq : length ((worldToCamera e3D_1).sub M) * length ((worldToCamera e3D_1).sub M) =
      ((1 - s) * length ((worldToCamera e3D_1).sub (worldToCamera e3D_0))) *
        ((1 - s) * length ((worldToCamera e3D_1).sub (worldToCamera e3D_0))) := by
    rw [lMsq, hscale, ← lEsq]
    ring
  have hlin : length ((worldToCamera e3D_1).sub M) =
      (1 - s) * length ((worldToCamera e3D_1).sub (worldToCamera e3D_0)) :=
    (mul_self_inj lM0 (mul_nonneg (sub_nonneg.mpr hs1) lE0)).mp hsq
  have hratio : length ((worldToCamera e3D_1).sub M) /
      length ((worldToCamera e3D_1).sub (worldToCamera e3D_0)) = 1 - s := by
    rw [hlin, mul_div_assoc, div_self hEne, mul_one]
  refine ⟨⟨data.edgePointIndexes, (worldToCamera e3D_1).sub (worldToCamera e3D_0),
    e3D_1.sub e3D_0, length ((worldToCamera e3D_1).sub M) /
      length ((worldToCamera e3D_1).sub (worldToCamera e3D_0))⟩,
    ?_, rfl, rfl, rfl, hratio, ?_, ?_⟩
  · unfold computeEdgeIntersectionData
    simp only [h0, h1]
  · show 0 ≤ length ((worldToCamera e3D_1).sub M) /
      length ((worldToCamera e3D_1).sub (worldToCamera e3D_0))
    rw [hratio]
    linarith
  · show length ((worldToCamera e3D_1).sub M) /
      length ((worldToCamera e3D_1).sub (worldToCamera e3D_0)) ≤ 1
    rw [hratio]
    linarith

/-- Witness for C10: the edge from `(0,0)` to `(2,0)` pressed at its middle; on vectors
along an axis the sum of the absolute components is the length. -/
theorem computeEdgeIntersectionData_ratio_witness :
    ∃ stored : IntersectionData ℚ,
      computeEdgeIntersectionData (K := ℚ) (fun p => p) (fun v => |v.x| + |v.y| + |v.z|)
          [⟨0, 0, 0⟩, ⟨2, 0, 0⟩] ⟨(0, 1), ⟨0, 0, 0⟩, ⟨0, 0, 0⟩, 0⟩ ⟨1, 0, 0⟩ = some stored ∧
      stored.edgeHeight2D = ⟨2, 0, 0⟩ ∧
      stored.edgeRatio = 1 / 2 ∧
      0 ≤ stored.edgeRatio ∧ stored.edgeRatio ≤ 1 := by
  obtain ⟨stored, e, a, -, -, c, d1, d2⟩ :=
    computeEdgeIntersectionData_ratio (K := ℚ) (fun p => p) (fun v => |v.x| + |v.y| + |v.z|)
      [⟨0, 0, 0⟩, ⟨2, 0, 0⟩] ⟨(0, 1), ⟨0, 0, 0⟩, ⟨0, 0, 0⟩, 0⟩ ⟨1, 0, 0⟩
      ⟨0, 0, 0⟩ ⟨2, 0, 0⟩ (1 / 2) rfl rfl
      (by norm_num) (by norm_num) (by norm_num)
      (by norm_num [MPoint.addV, MPoint.sub, MVector.smul])
      (by norm_num [isLengthOf, MPoint.sub, MVector.normSq])
      (by norm_num [isLengthOf, MPoint.sub, MVector.normSq])
  refine ⟨stored, e, ?_, ?_, d1, d2⟩
  · rw [a]
    norm_num [MPoint.sub]
  · rw [c]
    norm_num

/-! ### Press events of the build-face manipulator -/

/-- When `projectFace2D` fails, `createFace3d` only stores the winding-corrected points. -/
theorem createFace3d_of_failure
    (projectFace2D : List (MPoint K) → Bool × List (MPoint K))
    (addPolygon : List (MPoint K) → List (MPoint K) → List (MPoint K))
    (st : BuildFaceState K) (q : List (MPoint K))
    (hw : createFace3d_windingCheck st.cameraPoints = some q)
    (hproj : (projectFace2D q).1 = false) :
    MVGBuildFaceManipulator.createFace3d projectFace2D addPolygon st =
      some { st with cameraPoints := q } := by
  unfold MVGBuildFaceManipulator.createFace3d
  simp only [hw, hproj]
  simp

/-- When `projectFace2D` succeeds and the mesh does not have exactly one point,
`createFace3d` stores the winding-corrected points and adds one polygon to the mesh. -/
theorem createFace3d_of_success
    (projectFace2D : List (MPoint K) → Bool × List (MPoint K))
    (addPolygon : List (MPoint K) → List (MPoint K) → List (MPoint K))
    (st : BuildFaceState K) (q : List (MPoint K))
    (hw : createFace3d_windingCheck st.cameraPoints = some q)
    (hproj : (projectFace2D q).1 = true)
    (hmesh : st.meshPoints.length ≠ 1) :
    ∃ face3D : List (MPoint K),
      MVGBuildFaceManipulator.createFace3d projectFace2D addPolygon st =
        some { st with cameraPoints := q, meshPoints := addPolygon st.meshPoints face3D } := by
  unfold MVGBuildFaceManipulator.createFace3d
  simp only [hw, hproj, if_true]
  by_cases hc : (st.connectFace && decide (st.meshPoints.length > 0) && !st.isNewShape) = true
  · have hlen : 0 < st.meshPoints.length := by
      simp only [Bool.and_eq_true, decide_eq_true_eq] at hc
      exact hc.1.2
    have h2 : ¬ st.meshPoints.length < 2 := by omega
    have i1 : st.meshPoints.length - 1 < st.meshPoints.length := by omega
    have i2 : st.meshPoints.length - 2 < st.meshPoints.length := by omega
    simp only [hc, if_true, h2, if_false, List.getElem?_eq_getElem i1,
      List.getElem?_eq_getElem i2]
    exact ⟨_, rfl⟩
  · simp only [hc]
    exact ⟨_, rfl⟩

omit [LinearOrderedField K] in
/-- The reset of lines 367-381 on a list of four points. -/
theorem doPress_keepLastTwo_four (st : BuildFaceState K) (q0 q1 q2 q3 : MPoint K)
    (h : st.cameraPoints = [q0, q1, q2, q3]) :
    MVGBuildFaceManipulator.doPress_keepLastTwo st =
      some { st with cameraPoints := if st.connectFace = true then [q3, q2] else []
                     isNewShape := !st.connectFace } := by
  unfold MVGBuildFaceManipulator.doPress_keepLastTwo
  by_cases hc : st.connectFace = true
  · simp [hc, h]
  · simp [hc]

/-- A press that reaches four points with a failing `projectFace2D`. -/
theorem doPress_four_of_failure (worldToView : MPoint K → Int × Int)
    (viewToWorld : Int → Int → MPoint K)
    (projectFace2D : List (MPoint K) → Bool × List (MPoint K))
    (addPolygon : List (MPoint K) → List (MPoint K) → List (MPoint K))
    (mousex mousey : Int) (st : BuildFaceState K) (c0 c1 c2 c3 q0 q1 q2 q3 : MPoint K)
    (hadd : MVGBuildFaceManipulator.doPress_addPoints worldToView viewToWorld mousex mousey st =
      some [c0, c1, c2, c3])
    (hw : createFace3d_windingCheck [c0, c1, c2, c3] = some [q0, q1, q2, q3])
    (hproj : (projectFace2D [q0, q1, q2, q3]).1 = false) :
    MVGBuildFaceManipulator.doPress worldToView viewToWorld projectFace2D addPolygon
        mousex mousey st =
      some { st with cameraPoints := if st.connectFace = true then [q3, q2] else []
                     isNewShape := !st.connectFace } := by
  unfold MVGBuildFaceManipulator.doPress
  simp only [hadd, List.length_cons, List.length_nil]
  rw [createFace3d_of_failure projectFace2D addPolygon _ [q0, q1, q2, q3] hw hproj]
  simp only [Nat.reduceAdd, Nat.reduceLT, gt_iff_lt, if_true]
  rw [doPress_keepLastTwo_four _ q0 q1 q2 q3 rfl]

/-- A press that reaches four points with a successful `projectFace2D`. -/
theorem doPress_four_of_success (worldToView : MPoint K → Int × Int)
    (viewToWorld : Int → Int → MPoint K)
    (projectFace2D : List (MPoint K) → Bool × List (MPoint K))
    (addPolygon : List (MPoint K) → List (MPoint K) → List (MPoint K))
    (mousex mousey : Int) (st : BuildFaceState K) (c0 c1 c2 c3 q0 q1 q2 q3 : MPoint K)
    (hadd : MVGBuildFaceManipulator.doPress_addPoints worldToView viewToWorld mousex mousey st =
      some [c0, c1, c2, c3])
    (hw : createFace3d_windingCheck [c0, c1, c2, c3] = some [q0, q1, q2, q3])
    (hproj : (projectFace2D [q0, q1, q2, q3]).1 = true)
    (hmesh : st.meshPoints.length ≠ 1) :
    ∃ face3D : List (MPoint K),
      MVGBuildFaceManipulator.doPress worldToView viewToWorld projectFace2D addPolygon
          mousex mousey st =
        some { st with cameraPoints := if st.connectFace = true then [q3, q2] else []
                       isNewShape := !st.connectFace
                       meshPoints := addPolygon st.meshPoints face3D } := by
  obtain ⟨face3D, hf⟩ := createFace3d_of_success projectFace2D addPolygon
    { st with cameraPoints := [c0, c1, c2, c3] } [q0, q1, q2, q3] hw hproj hmesh
  refine ⟨face3D, ?_⟩
  unfold MVGBuildFaceManipulator.doPress
  simp only [hadd, List.length_cons, List.length_nil]
  rw [hf]
  simp only [Nat.reduceAdd, Nat.reduceLT, gt_iff_lt, if_true]
  rw [doPress_keepLastTwo_four _ q0 q1 q2 q3 rfl]

/-- The fourth click `(0,1)` on `threeClicks` without the computed last point: the list
reached is the unit square, which the winding check keeps. -/
theorem threeClicks_addPoints (connectFace isNewShape : Bool) :
    MVGBuildFaceManipulator.doPress_addPoints pixelFiveWorldToView planeViewToWorld 0 1
        (threeClicks connectFace false isNewShape) =
      some [⟨0, 0, 0⟩, ⟨1, 0, 0⟩, ⟨1, 1, 0⟩, ⟨0, 1, 0⟩] ∧
    createFace3d_windingCheck (K := ℚ) [⟨0, 0, 0⟩, ⟨1, 0, 0⟩, ⟨1, 1, 0⟩, ⟨0, 1, 0⟩] =
      some [⟨0, 0, 0⟩, ⟨1, 0, 0⟩, ⟨1, 1, 0⟩, ⟨0, 1, 0⟩] := by
  constructor
  · unfold MVGBuildFaceManipulator.doPress_addPoints
    cases connectFace <;> cases isNewShape <;>
      simp [threeClicks, planeViewToWorld]
  · rw [createFace3d_windingCheck_four]
    norm_num [edgesIntersection, edgesIntersectionWith, crossProduct2d, MPoint.sub,
      edgesIntersectionEps]

/-- C11: when a press of `MVGBuildFaceManipulator::doPress` brings the accumulated list to four
points, left as `q0..q3` by the winding check of `createFace3d`, and the face is committed
(`projectFace2D` succeeds, one polygon is added to the mesh), then with connect-face mode
enabled the accumulated list afterwards is `[q3, q2]` and the shape is marked as not new, and
with connect-face mode disabled the list is empty and the shape is marked as new. -/
theorem doPress_commit_keeps_last_two (worldToView : MPoint K → Int × Int)
    (viewToWorld : Int → Int → MPoint K)
    (projectFace2D : List (MPoint K) → Bool × List (MPoint K))
    (addPolygon : List (MPoint K) → List (MPoint K) → List (MPoint K))
    (mousex mousey : Int) (st : BuildFaceState K) (c0 c1 c2 c3 q0 q1 q2 q3 : MPoint K)
    (hadd : MVGBuildFaceManipulator.doPress_addPoints worldToView viewToWorld mousex mousey st =
      some [c0, c1, c2, c3])
    (hw : createFace3d_windingCheck [c0, c1, c2, c3] = some [q0, q1, q2, q3])
    (hproj : (projectFace2D [q0, q1, q2, q3]).1 = true)
    (hmesh : st.meshPoints.length ≠ 1) :
    ∃ st' : BuildFaceState K,
      MVGBuildFaceManipulator.doPress worldToView viewToWorld projectFace2D addPolygon
          mousex mousey st = some st' ∧
      (∃ face3D : List (MPoint K), st'.meshPoints = addPolygon st.meshPoints face3D) ∧
      (st.connectFace = true → st'.cameraPoints = [q3, q2] ∧ st'.isNewShape = false) ∧
      (st.connectFace = false → st'.cameraPoints = [] ∧ st'.isNewShape = true) := by
  obtain ⟨face3D, h⟩ := doPress_four_of_success worldToView viewToWorld projectFace2D
    addPolygon mousex mousey st c0 c1 c2 c3 q0 q1 q2 q3 hadd hw hproj hmesh
  refine ⟨_, h, ⟨face3D, rfl⟩, ?_, ?_⟩
  · intro hc
    simp [hc]
  · intro hc
    simp [hc]

/-- Witness for C11: the fourth click on the unit square in connect-face mode leaves
`[(0,1), (1,1)]`, the last two points in reverse order. -/
theorem doPress_commit_keeps_last_two_witness :
    ∃ st' : BuildFaceState ℚ,
      MVGBuildFaceManipulator.doPress pixelFiveWorldToView planeViewToWorld
          (fun points => (true, points)) (fun mesh face => mesh ++ face) 0 1
          (threeClicks true false true) = some st' ∧
      st'.cameraPoints = [⟨0, 1, 0⟩, ⟨1, 1, 0⟩] ∧ st'.isNewShape = false := by
  obtain ⟨st', h, -, hc, -⟩ :=
    doPress_commit_keeps_last_two pixelFiveWorldToView planeViewToWorld
      (fun points => (true, points)) (fun mesh face => mesh ++ face) 0 1
      (threeClicks true false true)
      ⟨0, 0, 0⟩ ⟨1, 0, 0⟩ ⟨1, 1, 0⟩ ⟨0, 1, 0⟩ ⟨0, 0, 0⟩ ⟨1, 0, 0⟩ ⟨1, 1, 0⟩ ⟨0, 1, 0⟩
      (threeClicks_addPoints true true).1 (threeClicks_addPoints true true).2 rfl
      (by simp [threeClicks])
  exact ⟨st', h, hc rfl⟩

/-- Concrete failing press: the fourth click on the unit square with a failing
`projectFace2D`.  Four points are reached, yet after the press the accumulated list is empty
when connect-face mode is off and is `[(0,1), (1,1)]` when it is on: the four points are not
kept. -/
theorem doPress_failure_resets_points :
    MVGBuildFaceManipulator.doPress_addPoints pixelFiveWorldToView planeViewToWorld 0 1
        (threeClicks false false true) =
      some [⟨0, 0, 0⟩, ⟨1, 0, 0⟩, ⟨1, 1, 0⟩, ⟨0, 1, 0⟩] ∧
    (∃ st' : BuildFaceState ℚ,
      MVGBuildFaceManipulator.doPress pixelFiveWorldToView planeViewToWorld
          (fun _ => (false, [])) (fun mesh face => mesh ++ face) 0 1
          (threeClicks false false true) = some st' ∧
      st'.cameraPoints = []) ∧
    (∃ st' : BuildFaceState ℚ,
      MVGBuildFaceManipulator.doPress pixelFiveWorldToView planeViewToWorld
          (fun _ => (false, [])) (fun mesh face => mesh ++ face) 0 1
          (threeClicks true false true) = some st' ∧
      st'.cameraPoints = [⟨0, 1, 0⟩, ⟨1, 1, 0⟩]) := by
  have h1 := doPress_four_of_failure pixelFiveWorldToView planeViewToWorld
    (fun _ => (false, [])) (fun mesh face => mesh ++ face) 0 1 (threeClicks false false true)
    ⟨0, 0, 0⟩ ⟨1, 0, 0⟩ ⟨1, 1, 0⟩ ⟨0, 1, 0⟩ ⟨0, 0, 0⟩ ⟨1, 0, 0⟩ ⟨1, 1, 0⟩ ⟨0, 1, 0⟩
    (threeClicks_addPoints false true).1 (threeClicks_addPoints false true).2 rfl
  have h2 := doPress_four_of_failure pixelFiveWorldToView planeViewToWorld
    (fun _ => (false, [])) (fun mesh face => mesh ++ face) 0 1 (threeClicks true false true)
    ⟨0, 0, 0⟩ ⟨1, 0, 0⟩ ⟨1, 1, 0⟩ ⟨0, 1, 0⟩ ⟨0, 0, 0⟩ ⟨1, 0, 0⟩ ⟨1, 1, 0⟩ ⟨0, 1, 0⟩
    (threeClicks_addPoints true true).1 (threeClicks_addPoints true true).2 rfl
  exact ⟨(threeClicks_addPoints false true).1, ⟨_, h1, by simp [threeClicks]⟩,
    ⟨_, h2, by simp [threeClicks]⟩⟩

/-- C12 (evaluation at the failing inputs): when a press of
`MVGBuildFaceManipulator::doPress` reaches four accumulated points and the `projectFace2D`
call made by `createFace3d` reports failure, no polygon is added (the mesh points are
unchanged), yet the accumulated points are not kept: lines 367-381 run all the same and leave
`[q3, q2]` with the shape marked as not new in connect-face mode, the empty list with the
shape marked as new otherwise. -/
theorem doPress_failure_still_resets (worldToView : MPoint K → Int × Int)
    (viewToWorld : Int → Int → MPoint K)
    (projectFace2D : List (MPoint K) → Bool × List (MPoint K))
    (addPolygon : List (MPoint K) → List (MPoint K) → List (MPoint K))
    (mousex mousey : Int) (st : BuildFaceState K) (c0 c1 c2 c3 q0 q1 q2 q3 : MPoint K)
    (hadd : MVGBuildFaceManipulator.doPress_addPoints worldToView viewToWorld mousex mousey st =
      some [c0, c1, c2, c3])
    (hw : createFace3d_windingCheck [c0, c1, c2, c3] = some [q0, q1, q2, q3])
    (hproj : (projectFace2D [q0, q1, q2, q3]).1 = false) :
    ∃ st' : BuildFaceState K,
      MVGBuildFaceManipulator.doPress worldToView viewToWorld projectFace2D addPolygon
          mousex mousey st = some st' ∧
      st'.meshPoints = st.meshPoints ∧
      (st.connectFace = true → st'.cameraPoints = [q3, q2] ∧ st'.isNewShape = false) ∧
      (st.connectFace = false → st'.cameraPoints = [] ∧ st'.isNewShape = true) := by
  refine ⟨_, doPress_four_of_failure worldToView viewToWorld projectFace2D addPolygon
    mousex mousey st c0 c1 c2 c3 q0 q1 q2 q3 hadd hw hproj, rfl, ?_, ?_⟩
  · intro hc
    simp [hc]
  · intro hc
    simp [hc]

/-- Witness for C12's evaluation: the failing fourth click on the unit square, connect-face
mode off. -/
theorem doPress_failure_still_resets_witness :
    ∃ st' : BuildFaceState ℚ,
      MVGBuildFaceManipulator.doPress pixelFiveWorldToView planeViewToWorld
          (fun _ => (false, [])) (fun mesh face => mesh ++ face) 0 1
          (threeClicks false false true) = some st' ∧
      st'.meshPoints = [] ∧ st'.cameraPoints = [] ∧ st'.isNewShape = true := by
  obtain ⟨st', h, hm, -, hc⟩ :=
    doPress_failure_still_resets pixelFiveWorldToView planeViewToWorld
      (fun _ => (false, [])) (fun mesh face => mesh ++ face) 0 1
      (threeClicks false false true)
      ⟨0, 0, 0⟩ ⟨1, 0, 0⟩ ⟨1, 1, 0⟩ ⟨0, 1, 0⟩ ⟨0, 0, 0⟩ ⟨1, 0, 0⟩ ⟨1, 1, 0⟩ ⟨0, 1, 0⟩
      (threeClicks_addPoints false true).1 (threeClicks_addPoints false true).2 rfl
  exact ⟨st', h, hm, hc rfl⟩

/-- After a failed commit in connect-face mode the shape is marked as not new although no
face was built.  On an empty mesh with `_computeLastPoint` set, every later press then clears
the points, finds nothing to re-seed, and leaves the single point under the pointer: no face
can be built any more. -/
theorem doPress_one_point_after_failed_commit (worldToView : MPoint K → Int × Int)
    (viewToWorld : Int → Int → MPoint K)
    (projectFace2D : List (MPoint K) → Bool × List (MPoint K))
    (addPolygon : List (MPoint K) → List (MPoint K) → List (MPoint K))
    (mousex mousey : Int) (st : BuildFaceState K)
    (hnew : st.isNewShape = false) (hlast : st.computeLastPoint = true)
    (hmesh : st.meshPoints = []) :
    MVGBuildFaceManipulator.doPress worldToView viewToWorld projectFace2D addPolygon
        mousex mousey st =
      some { st with cameraPoints := [viewToWorld mousex mousey] } := by
  have hadd : MVGBuildFaceManipulator.doPress_addPoints worldToView viewToWorld mousex mousey
      st = some [viewToWorld mousex mousey] := by
    unfold MVGBuildFaceManipulator.doPress_addPoints
    simp [hnew, hlast, hmesh]
  unfold MVGBuildFaceManipulator.doPress
  simp [hadd]

/-! ### Press events of the create manipulator -/

/-- With both edge indices inside the mesh, `computeEdgeIntersectionData` returns a record
and keeps the indices. -/
theorem computeEdgeIntersectionData_indexes (worldToCamera : MPoint K → MPoint K)
    (length : MVector K → K) (meshPoints : List (MPoint K)) (data : IntersectionData K)
    (M : MPoint K) (h1 : data.edgePointIndexes.1 < meshPoints.length)
    (h2 : data.edgePointIndexes.2 < meshPoints.length) :
    ∃ stored : IntersectionData K,
      computeEdgeIntersectionData worldToCamera length meshPoints data M = some stored ∧
      stored.edgePointIndexes = data.edgePointIndexes := by
  unfold computeEdgeIntersectionData
  simp only [List.getElem?_eq_getElem h1, List.getElem?_eq_getElem h2]
  exact ⟨_, rfl, rfl⟩

/-- One press keeps "at most three build points" when the face-creation command succeeds. -/
theorem createDoPress_step (worldToCamera : MPoint K → MPoint K) (length : MVector K → K)
    (env : PressEnv K) (st : CreateState K)
    (hlen : st.buildPoints2D.length ≤ 3)
    (hcmd : env.commandSucceeds = true)
    (hidx : env.intersectionState = IntersectionState.eIntersectionEdge →
      st.intersectionData.edgePointIndexes.1 < env.meshPoints.length ∧
      st.intersectionData.edgePointIndexes.2 < env.meshPoints.length) :
    ∃ r : Bool × CreateState K,
      MVGCreateManipulator.doPress worldToCamera length env st = some r ∧
      r.2.buildPoints2D.length ≤ 3 ∧
      r.2.intersectionData.edgePointIndexes = st.intersectionData.edgePointIndexes := by
  unfold MVGCreateManipulator.doPress
  by_cases hb : env.leftButton = true
  swap
  · exact ⟨(false, st), by simp [hb], hlen, rfl⟩
  by_cases hd : env.hasDisplayData = true
  swap
  · exact ⟨(false, st), by simp [hb, hd], hlen, rfl⟩
  by_cases hx : env.hasContext = true
  swap
  · exact ⟨(false, st), by simp [hb, hd, hx], hlen, rfl⟩
  simp only [hb, hd, hx, Bool.not_true, Bool.false_eq_true, if_false]
  cases hs : env.intersectionState with
  | eIntersectionNone =>
    simp only [hcmd, Bool.not_true, Bool.false_eq_true, if_false]
    by_cases h4 : (st.buildPoints2D ++ [env.mousePoint]).length < 4
    · refine ⟨_, by rw [if_pos h4], ?_, rfl⟩
      simp only [List.length_append, List.length_cons, List.length_nil] at h4 ⊢
      omega
    · exact ⟨_, by rw [if_neg h4], by simp, rfl⟩
  | eIntersectionPoint => exact ⟨(true, st), rfl, hlen, rfl⟩
  | eIntersectionEdge =>
    obtain ⟨i1, i2⟩ := hidx hs
    obtain ⟨stored, he, hi⟩ := computeEdgeIntersectionData_indexes worldToCamera length
      env.meshPoints st.intersectionData env.mousePoint i1 i2
    simp only [he]
    exact ⟨_, rfl, hlen, hi⟩

/-- Along a sequence of presses whose face-creation commands all succeed, "at most three
build points" is kept. -/
theorem createDoPressAll_invariant (worldToCamera : MPoint K → MPoint K)
    (length : MVector K → K) (envs : List (PressEnv K)) :
    ∀ st : CreateState K, st.buildPoints2D.length ≤ 3 →
      (∀ env ∈ envs, env.commandSucceeds = true) →
      (∀ env ∈ envs, env.intersectionState = IntersectionState.eIntersectionEdge →
        st.intersectionData.edgePointIndexes.1 < env.meshPoints.length ∧
        st.intersectionData.edgePointIndexes.2 < env.meshPoints.length) →
      ∃ st' : CreateState K,
        MVGCreateManipulator.doPressAll worldToCamera length envs st = some st' ∧
        st'.buildPoints2D.length ≤ 3 := by
  induction envs with
  | nil =>
    intro st hlen _ _
    exact ⟨st, rfl, hlen⟩
  | cons env envs ih =>
    intro st hlen hcmd hidx
    obtain ⟨r, hr, hl, hi⟩ := createDoPress_step worldToCamera length env st hlen
      (hcmd env (List.mem_cons_self _ _)) (hidx env (List.mem_cons_self _ _))
    obtain ⟨st', h', hl'⟩ := ih r.2 hl
      (fun e he => hcmd e (List.mem_cons_of_mem _ he))
      (fun e he hs => by
        rw [hi]
        exact hidx e (List.mem_cons_of_mem _ he) hs)
    refine ⟨st', ?_, hl'⟩
    simp only [MVGCreateManipulator.doPressAll, hr]
    exact h'

/-- C13 (counterexample): five presses with no intersection, starting from the empty list,
where `addCreateFaceCommand` fails: the fourth press returns `MS::kFailure` before
`buildPoints2D.clear()`, the fifth appends again, and the list holds five points. -/
theorem createDoPress_five_points :
    ∃ st' : CreateState ℚ,
      MVGCreateManipulator.doPressAll (fun p => p) (fun _ => 0)
          [plainPress false, plainPress false, plainPress false, plainPress false,
            plainPress false] emptyCreateState = some st' ∧
      st'.buildPoints2D.length = 5 := by
  refine ⟨{ emptyCreateState with
    buildPoints2D := [⟨0, 0, 0⟩, ⟨0, 0, 0⟩, ⟨0, 0, 0⟩, ⟨0, 0, 0⟩, ⟨0, 0, 0⟩] }, ?_, rfl⟩
  simp [MVGCreateManipulator.doPressAll, MVGCreateManipulator.doPress, plainPress,
    emptyCreateState]

/-- C13 (amended): for every sequence of `MVGCreateManipulator::doPress` events starting from
an empty build-point list in which every face-creation command succeeds (any intersection
state, edge indices inside the mesh), the list holds at most 3 points after every press.  A
press with no intersection appends the pointer position while fewer than 4 points result; when
the 4th point is reached and the command succeeds the list is cleared; when the command fails
the press returns `MS::kFailure` and the list, with the new point, is kept. -/
theorem createDoPress_build_points (worldToCamera : MPoint K → MPoint K)
    (length : MVector K → K) :
    (∀ (envs : List (PressEnv K)) (st : CreateState K), st.buildPoints2D = [] →
      (∀ env ∈ envs, env.commandSucceeds = true) →
      (∀ env ∈ envs, env.intersectionState = IntersectionState.eIntersectionEdge →
        st.intersectionData.edgePointIndexes.1 < env.meshPoints.length ∧
        st.intersectionData.edgePointIndexes.2 < env.meshPoints.length) →
      ∃ st' : CreateState K,
        MVGCreateManipulator.doPressAll worldToCamera length envs st = some st' ∧
        st'.buildPoints2D.length ≤ 3) ∧
    (∀ (env : PressEnv K) (st : CreateState K),
      env.leftButton = true → env.hasDisplayData = true → env.hasContext = true →
      env.intersectionState = IntersectionState.eIntersectionNone →
      (st.buildPoints2D.length < 3 →
        MVGCreateManipulator.doPress worldToCamera length env st =
          some (true, { st with buildPoints2D := st.buildPoints2D ++ [env.mousePoint] })) ∧
      (3 ≤ st.buildPoints2D.length → env.commandSucceeds = true →
        MVGCreateManipulator.doPress worldToCamera length env st =
          some (true, { st with buildPoints2D := [] })) ∧
      (3 ≤ st.buildPoints2D.length → env.commandSucceeds = false →
        MVGCreateManipulator.doPress worldToCamera length env st =
          some (false, { st with buildPoints2D := st.buildPoints2D ++ [env.mousePoint] }))) := by
  constructor
  · intro envs st hinit hcmd hidx
    exact createDoPressAll_invariant worldToCamera length envs st (by simp [hinit]) hcmd hidx
  · intro env st hb hd hx hs
    refine ⟨?_, ?_, ?_⟩
    · intro hlen
      have h4 : (st.buildPoints2D ++ [env.mousePoint]).length < 4 := by
        simp only [List.length_append, List.length_cons, List.length_nil]
        omega
      unfold MVGCreateManipulator.doPress
      simp only [hb, hd, hx, hs, Bool.not_true, Bool.false_eq_true, if_false, if_pos h4]
    · intro hlen hcmd
      have h4 : ¬ (st.buildPoints2D ++ [env.mousePoint]).length < 4 := by
        simp only [List.length_append, List.length_cons, List.length_nil]
        omega
      unfold MVGCreateManipulator.doPress
      simp only [hb, hd, hx, hs, hcmd, Bool.not_true, Bool.false_eq_true, if_false, if_neg h4]
    · intro hlen hcmd
      have h4 : ¬ (st.buildPoints2D ++ [env.mousePoint]).length < 4 := by
        simp only [List.length_append, List.length_cons, List.length_nil]
        omega
      unfold MVGCreateManipulator.doPress
      simp only [hb, hd, hx, hs, hcmd, Bool.not_true, Bool.not_false, Bool.false_eq_true,
        if_false, if_neg h4, if_true]

/-- Witness for C13 (amended): four successful presses from the empty list. -/
theorem createDoPress_build_points_witness :
    ∃ st' : CreateState ℚ,
      MVGCreateManipulator.doPressAll (fun p => p) (fun _ => 0)
          [plainPress true, plainPress true, plainPress true, plainPress true]
          emptyCreateState = some st' ∧
      st'.buildPoints2D.length ≤ 3 :=
  (createDoPress_build_points (K := ℚ) (fun p => p) (fun _ => 0)).1
    [plainPress true, plainPress true, plainPress true, plainPress true] emptyCreateState rfl
    (by simp [plainPress]) (by simp [plainPress])

/-! ### Number of points handed to `createFace3d` -/

omit [LinearOrderedField K] in
/-- After `doPress_keepLastTwo` the camera holds two points or none. -/
theorem doPress_keepLastTwo_length (st st' : BuildFaceState K)
    (h : MVGBuildFaceManipulator.doPress_keepLastTwo st = some st') :
    st'.cameraPoints.length ≤ 2 := by
  unfold MVGBuildFaceManipulator.doPress_keepLastTwo at h
  by_cases hc : st.connectFace = true
  · simp only [hc, if_true] at h
    split at h
    · simp only [Option.some.injEq] at h
      rw [← h]
      simp
    · exact absurd h (by simp)
  · simp only [hc, Bool.false_eq_true, if_false, Option.some.injEq] at h
    rw [← h]
    simp

/-- Whatever the state and the flags, `doPress` leaves at most three accumulated points. -/
theorem doPress_leaves_at_most_three (worldToView : MPoint K → Int × Int)
    (viewToWorld : Int → Int → MPoint K)
    (projectFace2D : List (MPoint K) → Bool × List (MPoint K))
    (addPolygon : List (MPoint K) → List (MPoint K) → List (MPoint K))
    (mousex mousey : Int) (st st' : BuildFaceState K)
    (h : MVGBuildFaceManipulator.doPress worldToView viewToWorld projectFace2D addPolygon
      mousex mousey st = some st') :
    st'.cameraPoints.length ≤ 3 := by
  unfold MVGBuildFaceManipulator.doPress at h
  split at h
  · exact absurd h (by simp)
  · rename_i points hadd
    by_cases h3 : points.length > 3
    · simp only [h3, if_true] at h
      split at h
      · exact absurd h (by simp)
      · have := doPress_keepLastTwo_length _ _ h
        omega
    · simp only [h3, if_false, Option.some.injEq] at h
      rw [← h]
      simp only
      omega

/-- C14 (evaluation at the failing input): with three accumulated points `a, b, c`, a new
shape (`_isNewShape`) and `_computeLastPoint` set, `doPress` appends the pointer position and
then `_lastPoint` as well, so the list reached has five points, and `createFace3d` is invoked
on these five points before the reset. -/
theorem doPress_createFace3d_with_five_points (worldToView : MPoint K → Int × Int)
    (viewToWorld : Int → Int → MPoint K)
    (projectFace2D : List (MPoint K) → Bool × List (MPoint K))
    (addPolygon : List (MPoint K) → List (MPoint K) → List (MPoint K))
    (mousex mousey : Int) (st : BuildFaceState K) (a b c : MPoint K)
    (hpts : st.cameraPoints = [a, b, c])
    (hnew : st.isNewShape = true) (hlast : st.computeLastPoint = true) :
    MVGBuildFaceManipulator.doPress_addPoints worldToView viewToWorld mousex mousey st =
      some [a, b, c, viewToWorld mousex mousey, st.lastPoint] ∧
    MVGBuildFaceManipulator.doPress worldToView viewToWorld projectFace2D addPolygon
        mousex mousey st =
      (MVGBuildFaceManipulator.createFace3d projectFace2D addPolygon
        { st with cameraPoints := [a, b, c, viewToWorld mousex mousey, st.lastPoint] }).bind
        MVGBuildFaceManipulator.doPress_keepLastTwo := by
  have hadd : MVGBuildFaceManipulator.doPress_addPoints worldToView viewToWorld mousex mousey
      st = some [a, b, c, viewToWorld mousex mousey, st.lastPoint] := by
    unfold MVGBuildFaceManipulator.doPress_addPoints
    simp [hpts, hnew, hlast]
  refine ⟨hadd, ?_⟩
  unfold MVGBuildFaceManipulator.doPress
  simp only [hadd, List.length_cons, List.length_nil]
  simp only [Nat.reduceAdd, Nat.reduceLT, gt_iff_lt, if_true]
  cases MVGBuildFaceManipulator.createFace3d projectFace2D addPolygon
    { st with cameraPoints := [a, b, c, viewToWorld mousex mousey, st.lastPoint] } <;> rfl

/-- Witness for C14's evaluation: the fourth click `(0,1)` on `threeClicks` with
`_computeLastPoint` and `_isNewShape` set reaches five points. -/
theorem doPress_createFace3d_with_five_points_witness :
    MVGBuildFaceManipulator.doPress_addPoints pixelFiveWorldToView planeViewToWorld 0 1
        (threeClicks true true true) =
      some [⟨0, 0, 0⟩, ⟨1, 0, 0⟩, ⟨1, 1, 0⟩, planeViewToWorld 0 1, ⟨9, 9, 0⟩] :=
  (doPress_createFace3d_with_five_points pixelFiveWorldToView planeViewToWorld
    (fun points => (true, points)) (fun mesh face => mesh ++ face) 0 1
    (threeClicks true true true) ⟨0, 0, 0⟩ ⟨1, 0, 0⟩ ⟨1, 1, 0⟩ rfl rfl rfl).1

/-! ### Point intersection in `doMove` -/

/-- The loop of `doMove`, started with the flag false, ends with the flag true exactly when
some mesh vertex is within the tolerance of the pointer in both axes. -/
theorem doMove_pointLoop_iff (worldToView : MPoint K → Int × Int) (tol : K)
    (mousex mousey : Int) (points : List (MPoint K)) :
    MVGBuildFaceManipulator.doMove_pointLoop worldToView tol mousex mousey points false = true ↔
      ∃ p ∈ points, vertexNearPointer worldToView tol mousex mousey p := by
  induction points with
  | nil => simp [MVGBuildFaceManipulator.doMove_pointLoop]
  | cons p rest ih =>
    have hnear : ((mousex : K) ≤ ((worldToView p).1 : K) + tol ∧
        (mousex : K) ≥ ((worldToView p).1 : K) - tol ∧
        (mousey : K) ≤ ((worldToView p).2 : K) + tol ∧
        (mousey : K) ≥ ((worldToView p).2 : K) - tol) ↔
        vertexNearPointer worldToView tol mousex mousey p := by
      unfold vertexNearPointer
      rw [abs_le, abs_le]
      constructor
      · rintro ⟨h1, h2, h3, h4⟩
        exact ⟨⟨by linarith, by linarith⟩, ⟨by linarith, by linarith⟩⟩
      · rintro ⟨⟨h1, h2⟩, ⟨h3, h4⟩⟩
        exact ⟨by linarith, by linarith, by linarith, by linarith⟩
    unfold MVGBuildFaceManipulator.doMove_pointLoop
    by_cases hc : ((mousex : K) ≤ ((worldToView p).1 : K) + tol ∧
        (mousex : K) ≥ ((worldToView p).1 : K) - tol ∧
        (mousey : K) ≤ ((worldToView p).2 : K) + tol ∧
        (mousey : K) ≥ ((worldToView p).2 : K) - tol)
    · simp only [hc, and_self, if_true, List.mem_cons, true_iff]
      exact ⟨p, Or.inl rfl, hnear.mp hc⟩
    · simp only [hc, if_false, ih, List.mem_cons]
      constructor
      · rintro ⟨q, hq, hn⟩
        exact ⟨q, Or.inr hq, hn⟩
      · rintro ⟨q, hq | hq, hn⟩
        · rw [hq] at hn
          exact absurd (hnear.mpr hn) hc
        · exact ⟨q, hq, hn⟩

/-- On a non-empty mesh `doMove` recomputes the flag: it is true exactly when some mesh
vertex is within the tolerance of the pointer, whatever the flag was before. -/
theorem doMove_flag_of_nonempty_mesh (worldToView : MPoint K → Int × Int)
    (viewToWorld : Int → Int → MPoint K) (tol : K) (newCamera : Option (List (MPoint K)))
    (mousex mousey : Int) (st : BuildFaceState K) (hmesh : st.meshPoints ≠ []) :
    (MVGBuildFaceManipulator.doMove worldToView viewToWorld tol newCamera mousex mousey
      st).doIntersectExistingPoint = true ↔
      ∃ p ∈ st.meshPoints, vertexNearPointer worldToView tol mousex mousey p := by
  have hlen : 0 < st.meshPoints.length := List.length_pos.mpr hmesh
  unfold MVGBuildFaceManipulator.doMove
  cases newCamera with
  | none =>
    simp only [gt_iff_lt, hlen, if_true]
    exact doMove_pointLoop_iff worldToView tol mousex mousey st.meshPoints
  | some points =>
    simp only [gt_iff_lt, hlen, if_true]
    exact doMove_pointLoop_iff worldToView tol mousex mousey st.meshPoints

/-- C15 (evaluation at the failing input): with an empty mesh point list and the flag true
from an earlier move, `doMove` leaves `_doIntersectExistingPoint` true although no mesh vertex
exists; the reset to false sits inside the guard `meshPoints.length() > 0`. -/
theorem doMove_keeps_stale_flag (worldToView : MPoint K → Int × Int)
    (viewToWorld : Int → Int → MPoint K) (tol : K) (newCamera : Option (List (MPoint K)))
    (mousex mousey : Int) (st : BuildFaceState K)
    (hmesh : st.meshPoints = []) (hflag : st.doIntersectExistingPoint = true) :
    (MVGBuildFaceManipulator.doMove worldToView viewToWorld tol newCamera mousex mousey
      st).doIntersectExistingPoint = true ∧
    ¬ ∃ p ∈ st.meshPoints, vertexNearPointer worldToView tol mousex mousey p := by
  constructor
  · unfold MVGBuildFaceManipulator.doMove
    cases newCamera with
    | none => simp [hmesh, hflag]
    | some points => simp [hmesh, hflag]
  · rw [hmesh]
    simp

/-- Witness for C15's evaluation: the empty mesh with the flag set. -/
theorem doMove_keeps_stale_flag_witness :
    (MVGBuildFaceManipulator.doMove pixelFiveWorldToView planeViewToWorld (1 / 10000000000)
      none 5 5 (emptyMeshState true)).doIntersectExistingPoint = true :=
  (doMove_keeps_stale_flag pixelFiveWorldToView planeViewToWorld (1 / 10000000000)
    none 5 5 (emptyMeshState true) rfl rfl).1

/-! ### Zero drag on an edge -/

/-- For `M = e0 + s*(e1 - e0)` with `0 <= s <= 1` and `e0`, `e1` distinct, the quotient of the
lengths of `e1 - M` and `e1 - e0` is `1 - s`. -/
theorem length_ratio_on_segment (length : MVector K → K) (e0 e1 M : MPoint K) (s : K)
    (hne : e0 ≠ e1) (hs1 : s ≤ 1)
    (hM : M = e0.addV (MVector.smul s (e1.sub e0)))
    (hlenM : isLengthOf length (e1.sub M)) (hlenE : isLengthOf length (e1.sub e0)) :
    length (e1.sub M) / length (e1.sub e0) = 1 - s := by
  obtain ⟨lM0, lMsq⟩ := hlenM
  obtain ⟨lE0, lEsq⟩ := hlenE
  have hpos := normSq_pos_of_ne _ _ hne
  have hEne : length (e1.sub e0) ≠ 0 := by
    intro hz
    rw [hz, mul_zero] at lEsq
    rw [← lEsq] at hpos
    exact lt_irrefl _ hpos
  have hscale : (e1.sub M).normSq = (1 - s) * (1 - s) * (e1.sub e0).normSq := by
    rw [hM]
    simp only [MVector.normSq, MPoint.sub, MPoint.addV, MVector.smul]
    ring
  have hsq : length (e1.sub M) * length (e1.sub M) =
      ((1 - s) * length (e1.sub e0)) * ((1 - s) * length (e1.sub e0)) := by
    rw [lMsq, hscale, ← lEsq]
    ring
  have hlin : length (e1.sub M) = (1 - s) * length (e1.sub e0) :=
    (mul_self_inj lM0 (mul_nonneg (sub_nonneg.mpr hs1) lE0)).mp hsq
  rw [hlin, mul_div_assoc, div_self hEne, mul_one]

/-- With ratio `1 - s` and height `e1 - e0`, the preview quad at `M = e0 + s*(e1 - e0)` is
`[e1, e0, e0, e1]`. -/
theorem previewPoints2D_at_press_position (e0 e1 : MPoint K) (s : K) :
    computeTmpFaceOnEdgeExtend_previewPoints2D e0 e1
        (e0.addV (MVector.smul s (e1.sub e0))) (1 - s) (e1.sub e0) =
      [e1, e0, e0, e1] := by
  cases e0 with
  | mk x0 y0 z0 =>
    cases e1 with
    | mk x1 y1 z1 =>
      simp only [computeTmpFaceOnEdgeExtend_previewPoints2D, MPoint.subV, MPoint.addV,
        MVector.smul, MPoint.sub, List.cons.injEq, MPoint.mk.injEq, and_true, true_and]
      refine ⟨⟨?_, ?_, ?_⟩, ?_, ?_, ?_⟩ <;> ring

/-- C16: for an edge with distinct camera-space end points `e0`, `e1` and a press position
`M = e0 + s*(e1 - e0)` on the segment, running `computeEdgeIntersectionData` at `M` and then
`computeTmpFaceOnEdgeExtend` at the same `M` synthesizes `P3 = e0` and `P4 = e1`: the 2D
preview quad is `[e1, e0, e0, e1]`, and this is the list `projectFace2D` receives. -/
theorem computeTmpFaceOnEdgeExtend_zero_drag (worldToCamera : MPoint K → MPoint K)
    (length : MVector K → K) (meshPoints : List (MPoint K)) (data : IntersectionData K)
    (M e3D_0 e3D_1 : MPoint K) (s : K)
    (h0 : meshPoints[data.edgePointIndexes.1]? = some e3D_0)
    (h1 : meshPoints[data.edgePointIndexes.2]? = some e3D_1)
    (hne : worldToCamera e3D_0 ≠ worldToCamera e3D_1)
    (hs0 : 0 ≤ s) (hs1 : s ≤ 1)
    (hM : M = (worldToCamera e3D_0).addV
      (MVector.smul s ((worldToCamera e3D_1).sub (worldToCamera e3D_0))))
    (hlenM : isLengthOf length ((worldToCamera e3D_1).sub M))
    (hlenE : isLengthOf length ((worldToCamera e3D_1).sub (worldToCamera e3D_0))) :
    ∃ stored : IntersectionData K,
      computeEdgeIntersectionData worldToCamera length meshPoints data M = some stored ∧
      computeTmpFaceOnEdgeExtend_previewPoints2D (worldToCamera e3D_0) (worldToCamera e3D_1)
          M stored.edgeRatio stored.edgeHeight2D =
        [worldToCamera e3D_1, worldToCamera e3D_0, worldToCamera e3D_0,
          worldToCamera e3D_1] ∧
      ∀ projectFace2D : List (MPoint K) → Bool → MVector K → Bool × List (MPoint K),
        computeTmpFaceOnEdgeExtend worldToCamera projectFace2D meshPoints stored M =
          if (projectFace2D [worldToCamera e3D_1, worldToCamera e3D_0, worldToCamera e3D_0,
              worldToCamera e3D_1] true stored.edgeHeight3D).1 = true then
            some (((projectFace2D [worldToCamera e3D_1, worldToCamera e3D_0,
              worldToCamera e3D_0, worldToCamera e3D_1] true stored.edgeHeight3D).2.set 0
                e3D_1).set 1 e3D_0)
          else
            some (projectFace2D [worldToCamera e3D_1, worldToCamera e3D_0,
              worldToCamera e3D_0, worldToCamera e3D_1] true stored.edgeHeight3D).2 := by
  have _ := hs0
  have hratio := length_ratio_on_segment length (worldToCamera e3D_0) (worldToCamera e3D_1)
    M s hne hs1 hM hlenM hlenE
  have hquad : computeTmpFaceOnEdgeExtend_previewPoints2D (worldToCamera e3D_0)
      (worldToCamera e3D_1) M
      (length ((worldToCamera e3D_1).sub M) /
        length ((worldToCamera e3D_1).sub (worldToCamera e3D_0)))
      ((worldToCamera e3D_1).sub (worldToCamera e3D_0)) =
      [worldToCamera e3D_1, worldToCamera e3D_0, worldToCamera e3D_0,
        worldToCamera e3D_1] := by
    rw [hratio, hM]
    exact previewPoints2D_at_press_position _ _ s
  refine ⟨⟨data.edgePointIndexes, (worldToCamera e3D_1).sub (worldToCamera e3D_0),
    e3D_1.sub e3D_0, length ((worldToCamera e3D_1).sub M) /
      length ((worldToCamera e3D_1).sub (worldToCamera e3D_0))⟩, ?_, hquad, ?_⟩
  · unfold computeEdgeIntersectionData
    simp only [h0, h1]
  · intro projectFace2D
    unfold computeTmpFaceOnEdgeExtend
    simp only [h0, h1, hquad]

/-- Witness for C16: the edge from `(0,0)` to `(2,0)` pressed at its middle `(1,0)`. -/
theorem computeTmpFaceOnEdgeExtend_zero_drag_witness :
    ∃ stored : IntersectionData ℚ,
      computeEdgeIntersectionData (K := ℚ) (fun p => p) (fun v => |v.x| + |v.y| + |v.z|)
          [⟨0, 0, 0⟩, ⟨2, 0, 0⟩] ⟨(0, 1), ⟨0, 0, 0⟩, ⟨0, 0, 0⟩, 0⟩ ⟨1, 0, 0⟩ = some stored ∧
      computeTmpFaceOnEdgeExtend_previewPoints2D (K := ℚ) ⟨0, 0, 0⟩ ⟨2, 0, 0⟩ ⟨1, 0, 0⟩
          stored.edgeRatio stored.edgeHeight2D =
        [⟨2, 0, 0⟩, ⟨0, 0, 0⟩, ⟨0, 0, 0⟩, ⟨2, 0, 0⟩] := by
  obtain ⟨stored, e, q, -⟩ :=
    computeTmpFaceOnEdgeExtend_zero_drag (K := ℚ) (fun p => p)
      (fun v => |v.x| + |v.y| + |v.z|)
      [⟨0, 0, 0⟩, ⟨2, 0, 0⟩] ⟨(0, 1), ⟨0, 0, 0⟩, ⟨0, 0, 0⟩, 0⟩ ⟨1, 0, 0⟩
      ⟨0, 0, 0⟩ ⟨2, 0, 0⟩ (1 / 2) rfl rfl
      (by norm_num) (by norm_num) (by norm_num)
      (by norm_num [MPoint.addV, MPoint.sub, MVector.smul])
      (by norm_num [isLengthOf, MPoint.sub, MVector.normSq])
      (by norm_num [isLengthOf, MPoint.sub, MVector.normSq])
  exact ⟨stored, e, q⟩

end MayaMVG
